import Mathlib

/-!
# Verification of the Akram notification dispatch engine

A shallow embedding, in Lean 4, of the notification dispatch engine of the
Akram backend (Python/FastAPI), covering:

* `app/application/services/notification_service.py` (vendor channel),
* `app/application/services/client_notification_service.py` (client channel),
* `app/infrastructure/evolution_api.py` (gateway client and rate governor),
* `app/domain/models/notification_log.py` (the dedup ledger row),
* `app/scheduler/jobs.py` and `app/interfaces/api/notifications.py`
  (the callers of the two dispatch runs).

Modelling conventions:

* Python strings are Lean `String`s; `str.upper()` is modelled for the
  ASCII range plus the accented Latin letters that actually occur in the
  repository's category labels.
* SQLAlchemy `Float` columns that the services only render into messages
  (`quantidade`, `preco_com_st`, `custo_medio`) are modelled as exact
  values: quantities as whole `Nat` units, money as `Nat` cents.  The
  Python float formatting (`:,.2f`, `str`) is mirrored on that domain.
* `datetime.now(tz)` is an explicit `Now` argument; `date` columns are a
  `PyDate` structure.  SQL `func.date(sent_at)` is the `sent_date` field
  of a ledger row.
* The database session is a `List LogRow` threaded through the run;
  `db.add` + `db.commit` append the row with its final status.
* The HTTP gateway is an oracle mapping attempt numbers to outcomes;
  `random.uniform(a, b)` is `a + (b - a) * r` for an explicit draw
  `r ∈ [0, 1)`, exactly Python's implementation of `uniform`.
-/

namespace Akram

/-! ## Python string primitives -/

/-- Character-list version of `needle` being a prefix of `hay`. -/
def pfxOf : List Char → List Char → Bool
  | [], _ => true
  | _, [] => false
  | a :: as, b :: bs => a == b && pfxOf as bs

/-- `needle` occurs as a contiguous run inside `hay` (character lists). -/
def subOcc (n : List Char) : List Char → Bool
  | [] => n.isEmpty
  | c :: t => pfxOf n (c :: t) || subOcc n t

/-- Python's `needle in hay` on strings. -/
def pyIn (needle hay : String) : Bool :=
  subOcc needle.data hay.data

/-- Python `str.upper()` for one character: ASCII letters plus the accented
Latin letters occurring in the repository's category labels. -/
def pyUpperChar (c : Char) : Char :=
  if 'a' ≤ c ∧ c ≤ 'z' then Char.ofNat (c.toNat - 32)
  else if c = 'á' then 'Á' else if c = 'à' then 'À'
  else if c = 'â' then 'Â' else if c = 'ã' then 'Ã'
  else if c = 'é' then 'É' else if c = 'ê' then 'Ê'
  else if c = 'í' then 'Í' else if c = 'ó' then 'Ó'
  else if c = 'ô' then 'Ô' else if c = 'õ' then 'Õ'
  else if c = 'ú' then 'Ú' else if c = 'ç' then 'Ç'
  else c

/-- Python `str.upper()`. -/
def pyUpper (s : String) : String :=
  String.mk (s.data.map pyUpperChar)

/-- Python `s * n` for a string `s` (used for the `"━" * 30` rules). -/
def pyRepeat (s : String) (n : Nat) : String :=
  String.join (List.replicate n s)

/-- Python `s[:n]` on a string. -/
def pySlice (s : String) (n : Nat) : String :=
  String.mk (s.data.take n)

/-- Python falsiness of a string: empty. -/
def pyFalsy (s : String) : Bool := s.data.isEmpty

/-- `s.startswith(pre)`. -/
def pyStarts (s pre : String) : Bool := pfxOf pre.data s.data

/-- Python truthiness-based `or` on an optional string
(`x or d` is `d` when `x` is `None` or empty). -/
def pyOrStr (o : Option String) (d : String) : String :=
  match o with
  | none => d
  | some s => if pyFalsy s then d else s

/-- Rendering of an optional string in an f-string (`None` prints as
`"None"`). -/
def fstr (o : Option String) : String := o.getD "None"

/-- Rendering of an optional integer in an f-string. -/
def fstrInt (o : Option Int) : String :=
  match o with
  | none => "None"
  | some i => toString i

/-! ## Dates, clock readings, number formatting -/

/-- A calendar date, as produced by `.date()` on a timezone-aware
`datetime` and as stored in SQLAlchemy `Date` columns. -/
structure PyDate where
  day : Nat
  month : Nat
  year : Nat
deriving DecidableEq, Repr

/-- Two-digit zero padding, as in `strftime`'s `%d`, `%m`, `%H`, `%M`. -/
def pad2 (n : Nat) : String :=
  if n < 10 then "0" ++ toString n else toString n

/-- `strftime("%d/%m/%Y")`. -/
def strftimeDMY (d : PyDate) : String :=
  pad2 d.day ++ "/" ++ pad2 d.month ++ "/" ++ toString d.year

/-- A reading of `datetime.now(tz)`, carrying the fields the services
render (`%d/%m/%Y` date and `%H:%M` time). -/
structure Now where
  date : PyDate
  hour : Nat
  minute : Nat
deriving DecidableEq, Repr

/-- `now.strftime("%d/%m/%Y")`. -/
def Now.dateStr (n : Now) : String := strftimeDMY n.date

/-- `now.strftime("%H:%M")`. -/
def Now.timeStr (n : Now) : String := pad2 n.hour ++ ":" ++ pad2 n.minute

/-- Insert a thousands separator every three digits, working on the
reversed digit list. -/
def revGroup3 : List Char → List Char
  | a :: b :: c :: d :: rest => a :: b :: c :: ',' :: revGroup3 (d :: rest)
  | l => l

/-- Python's `f"{n:,}"` digit grouping for a natural number. -/
def groupThousands (n : Nat) : String :=
  String.mk ((revGroup3 (toString n).data.reverse).reverse)

/-- Python's `f"{x:,.2f}"` where the float `x` is modelled as an exact
amount of `cents`. -/
def fmtComma2 (cents : Nat) : String :=
  groupThousands (cents / 100) ++ "." ++ pad2 (cents % 100)

/-- Rendering of `{p.quantidade or 0}` where the `Float` column is
modelled as whole units: `None` falls back to the int `0`, a stored
`0.0` is falsy and also renders as `0`, and a nonzero float `q` renders
as `q.0`. -/
def fstrQty (q : Option Nat) : String :=
  match q with
  | none => "0"
  | some 0 => "0"
  | some n => toString n ++ ".0"

/-! ## Python list chunking

`[lst[i:i + c] for i in range(0, len(lst), c)]` — the chunk split used by
both `send_daily_alerts` (`PRODUCTS_PER_MESSAGE = 25`) and
`send_client_alerts` (`PRODUCTS_PER_MESSAGE = 15`).  A step of `c = 0`
raises `ValueError` in Python and never occurs (both caps are positive);
the Lean function returns `[]` in that dead case to stay total. -/

/-- Worker for `pyChunks`, structurally recursive on a fuel bounded below
by the list length (the list shrinks by `c ≥ 1` per step). -/
def chunksGo (c : Nat) : Nat → List α → List (List α)
  | 0, _ => []
  | _, [] => []
  | fuel + 1, x :: xs =>
      (x :: xs).take c :: chunksGo c fuel ((x :: xs).drop c)

def pyChunks (l : List α) (c : Nat) : List (List α) :=
  if c = 0 then [] else chunksGo c l.length l

theorem chunksGo_congr (c : Nat) (hc : c ≠ 0) :
    ∀ (f1 : Nat) (l : List α) (f2 : Nat), l.length ≤ f1 → l.length ≤ f2 →
      chunksGo c f1 l = chunksGo c f2 l := by
  intro f1
  induction f1 with
  | zero =>
      intro l f2 h1 _
      have : l = [] := List.eq_nil_of_length_eq_zero (Nat.le_zero.mp h1)
      subst this
      cases f2 <;> rfl
  | succ f1 ih =>
      intro l f2 h1 h2
      rcases l with _ | ⟨x, xs⟩
      · cases f2 <;> rfl
      · rcases f2 with _ | f2
        · simp at h2
        · show (x :: xs).take c :: chunksGo c f1 ((x :: xs).drop c)
            = (x :: xs).take c :: chunksGo c f2 ((x :: xs).drop c)
          have hlen : ((x :: xs).drop c).length = xs.length + 1 - c := by
            simp [List.length_drop]
          have hc1 : 1 ≤ c := Nat.one_le_iff_ne_zero.mpr hc
          rw [ih ((x :: xs).drop c) f2 (by simp at h1; omega) (by simp at h2; omega)]

theorem pyChunks_nil (c : Nat) : pyChunks ([] : List α) c = [] := by
  unfold pyChunks
  rcases eq_or_ne c 0 with rfl | hc
  · simp
  · simp [hc, chunksGo]

theorem pyChunks_zero (l : List α) : pyChunks l 0 = [] := by
  simp [pyChunks]

theorem pyChunks_pos (l : List α) (c : Nat) (hc : c ≠ 0) (hl : l ≠ []) :
    pyChunks l c = l.take c :: pyChunks (l.drop c) c := by
  rcases l with _ | ⟨x, xs⟩
  · exact absurd rfl hl
  · unfold pyChunks
    simp only [hc, if_false, List.length_cons]
    show (x :: xs).take c :: chunksGo c (xs.length) ((x :: xs).drop c) = _
    rw [chunksGo_congr c hc xs.length ((x :: xs).drop c) ((x :: xs).drop c).length
      (by simp [List.length_drop]; omega) (le_refl _)]

/-- Number of chunks: `⌈L / c⌉`. -/
theorem pyChunks_length (c : Nat) (hc : c ≠ 0) :
    ∀ l : List α, (pyChunks l c).length = (l.length + c - 1) / c := by
  intro l
  generalize hn : l.length = n
  induction n using Nat.strong_induction_on generalizing l with
  | _ n ih =>
    rcases eq_or_ne l [] with rfl | hl
    · have hn0 : n = 0 := by simpa using hn.symm
      subst hn0
      rw [pyChunks_nil]
      exact (Nat.div_eq_of_lt (by omega)).symm
    · have hL : 0 < l.length := List.length_pos.mpr hl
      have hcpos : 0 < c := Nat.pos_of_ne_zero hc
      have hdrop : (l.drop c).length = l.length - c := List.length_drop c l
      rw [pyChunks_pos l c hc hl, List.length_cons,
        ih (n - c) (by omega) (l.drop c) (by rw [hdrop, hn])]
      have h2 : (n + c - 1) / c = (n - 1) / c + 1 := by
        have h1 : n + c - 1 = (n - 1) + c := by omega
        rw [h1, Nat.add_div_right _ hcpos]
      rcases le_or_lt n c with h | h
      · have e0 : n - c = 0 := by omega
        have e1 : (0 + c - 1) / c = 0 := Nat.div_eq_of_lt (by omega)
        have e2 : (n - 1) / c = 0 := Nat.div_eq_of_lt (by omega)
        rw [e0, e1, h2, e2]
      · have e3 : n - c + c - 1 = n - 1 := by omega
        rw [e3, h2]

/-- Every chunk holds at most `c` items. -/
theorem pyChunks_chunk_le (c : Nat) :
    ∀ l : List α, ∀ ch ∈ pyChunks l c, ch.length ≤ c := by
  intro l
  generalize hn : l.length = n
  induction n using Nat.strong_induction_on generalizing l with
  | _ n ih =>
    intro ch hch
    rcases eq_or_ne c 0 with rfl | hc
    · rw [pyChunks_zero] at hch
      simp at hch
    rcases eq_or_ne l [] with rfl | hl
    · rw [pyChunks_nil] at hch
      simp at hch
    · have hL : 0 < l.length := List.length_pos.mpr hl
      rw [pyChunks_pos l c hc hl] at hch
      rcases List.mem_cons.mp hch with rfl | h
      · simp [List.length_take_le c l]
      · exact ih ((l.drop c).length)
          (by simp only [List.length_drop]; omega)
          (l.drop c) rfl ch h

/-- Concatenating the chunks gives back the original list in order. -/
theorem pyChunks_flatten (c : Nat) (hc : c ≠ 0) :
    ∀ l : List α, (pyChunks l c).flatten = l := by
  intro l
  generalize hn : l.length = n
  induction n using Nat.strong_induction_on generalizing l with
  | _ n ih =>
    rcases eq_or_ne l [] with rfl | hl
    · rw [pyChunks_nil]
      rfl
    · have hL : 0 < l.length := List.length_pos.mpr hl
      rw [pyChunks_pos l c hc hl, List.flatten_cons,
        ih ((l.drop c).length) (by simp only [List.length_drop]; omega)
          (l.drop c) rfl]
      exact List.take_append_drop c l

/-- The item numbers that `enumerate(chunk, start_index)` prints for the
chunk at 0-based position `i`, given the orchestrators' choice
`start_index = chunk_idx * PRODUCTS_PER_MESSAGE + 1`. -/
def chunkNumbersFrom (c : Nat) : List (List α) → Nat → List (List Nat)
  | [], _ => []
  | ch :: rest, i => List.range' (i * c + 1) ch.length :: chunkNumbersFrom c rest (i + 1)

/-- Continuous numbering across parts: the numbers printed over all
chunks, in order, are exactly `1, 2, …, L`. -/
theorem pyChunks_numbering (c : Nat) (hc : c ≠ 0) :
    ∀ (l : List α) (i : Nat),
      (chunkNumbersFrom c (pyChunks l c) i).flatten
        = List.range' (i * c + 1) l.length := by
  intro l
  generalize hn : l.length = n
  induction n using Nat.strong_induction_on generalizing l with
  | _ n ih =>
    intro i
    rcases eq_or_ne l [] with rfl | hl
    · have hn0 : n = 0 := by simpa using hn.symm
      subst hn0
      rw [pyChunks_nil]
      rfl
    · have hL : 0 < l.length := List.length_pos.mpr hl
      have hcpos : 0 < c := Nat.pos_of_ne_zero hc
      rw [pyChunks_pos l c hc hl, chunkNumbersFrom, List.flatten_cons,
        ih ((l.drop c).length) (by simp only [List.length_drop]; omega)
          (l.drop c) rfl (i + 1)]
      rcases le_or_lt l.length c with h | h
      · have hdrop : (l.drop c).length = 0 := by simp only [List.length_drop]; omega
        have htake : (l.take c).length = l.length := by
          simp only [List.length_take]; omega
        rw [hdrop, htake]
        simp [hn]
      · have hdrop : (l.drop c).length = l.length - c := List.length_drop c l
        have htake : (l.take c).length = c := by
          simp only [List.length_take]; omega
        have harith : (i + 1) * c + 1 = (i * c + 1) + c := by ring
        rw [hdrop, htake, harith, List.range'_append_1]
        have : l.length - c + c = l.length := by omega
        rw [this, hn]

/-! ## Domain records

`app/domain/models/product.py` and `app/domain/models/client.py`, restricted
to the columns the dispatch engine renders.  `Float` columns are modelled
as exact whole units (`quantidade`) or cents (`preco_com_st`,
`custo_medio`); nullable columns are `Option`. -/

structure Product where
  id : Nat
  codigo : Option Int
  descricao : Option String
  embalagem : Option String
  quantidade : Option Nat
  validade : Option PyDate
  preco_com_st : Option Nat
  custo_medio : Option Nat
  classe : Option String
  filial : Option String
deriving DecidableEq, Repr

structure Client where
  codigo : Option Int
  razao_social : Option String
  fantasia : Option String
  celular : Option String
  dt_ult_compra : Option PyDate
deriving DecidableEq, Repr

/-! ## Severity classification

The emoji/label choice shared by both formatters: case-insensitive
substring matching on `(p.classe or "").upper()`, in source order
`MUITO` → `CRITICO`/`CRÍTICO` → `TEN` → default-label fallthrough.
The two services differ only in the fallthrough label
(`"OUTROS"` vs `"Outros"`). -/

def classifyP (classe : Option String) (defLabel : String) : String × String :=
  let pClass := pyUpper (classe.getD "")
  if pyIn "MUITO" pClass then ("⚫", "MUITO CRÍTICO")
  else if pyIn "CRITICO" pClass || pyIn "CRÍTICO" pClass then ("🔴", "CRÍTICO")
  else if pyIn "TEN" pClass then ("🟡", "ATENÇÃO")
  else ("⚪", pyOrStr classe defLabel)

/-! ## Vendor formatter — `format_critical_products_message` -/

/-- `p.validade.strftime("%d/%m/%Y") if p.validade else "N/A"`. -/
def validadeStr (v : Option PyDate) : String :=
  match v with
  | some d => strftimeDMY d
  | none => "N/A"

/-- The four lines printed for one vendor-channel item. -/
def vendorItemLines (emoji : String) (i : Nat) (p : Product) : List String :=
  let desc := fstr p.descricao
  let cod := fstrInt p.codigo
  let emb := pyOrStr p.embalagem "—"
  let venc := validadeStr p.validade
  let qtd := fstrQty p.quantidade
  let custoStr := "R$: " ++ fmtComma2 (p.preco_com_st.getD 0)
  let fil := pyOrStr p.filial "—"
  [ s!"{emoji} *{i}. {desc}*",
    s!"   📦 Cód: {cod} | 📦 Emb: {emb}",
    s!"   📅 Vence: {venc} | 📊 Qtd: {qtd}",
    s!"   💰 *Valor: {custoStr}* | 🏪 {fil}" ]

/-- The vendor item loop: `enumerate(products, start_index)` with the
`last_class_label` header-insertion state. -/
def vendorBody : List Product → Nat → Option String → List String
  | [], _, _ => []
  | p :: rest, i, lastLabel =>
      let ec := classifyP p.classe "OUTROS"
      let emoji := ec.1
      let label := ec.2
      let hdr :=
        if some label ≠ lastLabel then
          ["", s!"🏷️ *{label}*", pyRepeat "─" 20]
        else []
      hdr ++ vendorItemLines emoji i p ++ vendorBody rest (i + 1) (some label)

/-- All lines of one vendor-channel message. -/
def formatCriticalLines (products : List Product) (now : Now)
    (part : Nat) (totalParts : Nat) (startIdx : Nat) : List String :=
  let dateStr := now.dateStr
  let timeStr := now.timeStr
  let parteLines : List String :=
    if totalParts > 1 then
      let k := part + 1
      [s!"📋 Parte {k} de {totalParts}"]
    else []
  let n := products.length
  let plural := if n > 1 then "s" else ""
  let sep30 := pyRepeat "━" 30
  ["🚨 *ALERTA DE PRODUTOS* 🚨", "", s!"📅 {dateStr} às {timeStr}"]
    ++ parteLines
    ++ [s!"📊 {n} produto{plural}", "", sep30]
    ++ vendorBody products startIdx none
    ++ ["", sep30, "", "🤖 _Enviado automaticamente pelo Akram Monitor_"]

/-- `format_critical_products_message(products, part, total_parts,
start_index)`, with the service's `datetime.now(tz)` made explicit. -/
def format_critical_products_message (products : List Product) (now : Now)
    (part : Nat := 0) (totalParts : Nat := 1) (startIdx : Nat := 1) : String :=
  String.intercalate "\n" (formatCriticalLines products now part totalParts startIdx)

/-! ## Client formatter — `format_client_products_message` -/

/-- The six lines printed for one client-channel item (numbering restarts
at 1 in every part, and the class label is printed on every item). -/
def clientItemLines (i : Nat) (p : Product) : List String :=
  let ec := classifyP p.classe "Outros"
  let emoji := ec.1
  let label := ec.2
  let desc := fstr p.descricao
  let cod := fstrInt p.codigo
  let emb := pyOrStr p.embalagem "—"
  let venc := validadeStr p.validade
  let qtd := fstrQty p.quantidade
  let custoStr := "R$ " ++ fmtComma2 (p.custo_medio.getD 0)
  let fil := pyOrStr p.filial "—"
  [ "",
    s!"{emoji} *{i}. {desc}*",
    s!"   🏷️ {label}",
    s!"   📦 Cód: {cod} | Emb: {emb}",
    s!"   📅 Vence: {venc} | Qtd: {qtd}",
    s!"   💰 Valor: {custoStr} | 🏪 {fil}" ]

def clientBody : List Product → Nat → List String
  | [], _ => []
  | p :: rest, i => clientItemLines i p ++ clientBody rest (i + 1)

/-- All lines of one client-channel message. -/
def formatClientLines (c : Client) (products : List Product) (now : Now)
    (part : Nat) (totalParts : Nat) : List String :=
  let dateStr := now.dateStr
  let timeStr := now.timeStr
  let codigoStr := fstrInt c.codigo
  let clientName := pyOrStr c.fantasia (pyOrStr c.razao_social s!"Cliente {codigoStr}")
  let lastPurchase :=
    match c.dt_ult_compra with
    | some d => strftimeDMY d
    | none => "N/A"
  let parteLines : List String :=
    if totalParts > 1 then
      let k := part + 1
      [s!"📄 Parte {k} de {totalParts}"]
    else []
  let n := products.length
  let plural := if n > 1 then "s" else ""
  let sep30 := pyRepeat "━" 30
  [ "📋 *AVISO — PRODUTOS DISPONÍVEIS* 📋", "",
    s!"👤 *{clientName}*",
    s!"📅 Última compra: {lastPurchase}",
    s!"🕐 Enviado em: {dateStr} às {timeStr}" ]
    ++ parteLines
    ++ ["", s!"📊 {n} produto{plural} em destaque:", "", sep30]
    ++ clientBody products 1
    ++ ["", sep30, "", "📞 _Entre em contato para fazer seu pedido!_", "",
        "🤖 _Enviado automaticamente pelo Akram Monitor_"]

/-- `format_client_products_message(client, products, part, total_parts)`,
with the service's `datetime.now(tz)` made explicit. -/
def format_client_products_message (c : Client) (products : List Product)
    (now : Now) (part : Nat := 0) (totalParts : Nat := 1) : String :=
  String.intercalate "\n" (formatClientLines c products now part totalParts)

/-! ## Phone normalization — `normalize_phone`
(`client_notification_service.py`) -/

/-- `re.sub(r"\D", "", str(raw).strip())`: keep only digit characters. -/
def cleanDigits (raw : String) : String :=
  String.mk (raw.data.filter Char.isDigit)

/-- `normalize_phone(raw)`; `none` is Python `None` (both as the argument
and as the rejected result). -/
def normalize_phone (raw : Option String) : Option String :=
  match raw with
  | none => none
  | some raw =>
    if pyFalsy raw then none
    else
      let digits := cleanDigits raw
      if pyFalsy digits ∨ digits.length < 10 then none
      else if digits.length > 13 then none
      else if pyStarts digits "55" ∧ digits.length ≥ 12 then some digits
      else if 10 ≤ digits.length ∧ digits.length ≤ 11 then some ("55" ++ digits)
      else none

/-! ## Dedup ledger — `NotificationLog`

One row of the `notifications_log` table.  `sent_date` is the calendar
date that `func.date(NotificationLog.sent_at)` extracts; the
`notification_type` column exists in the database schema (added by
`scripts/migrate_notification_log.py` with default `'vendor'`) but is
**not** declared on the Python ORM class — see `notificationLogModelColumns`
below for the attribute set the class actually has. -/

structure LogRow where
  phone : String
  message : String
  status : String
  error : Option String
  direction : String
  notification_type : Option String
  sent_date : PyDate
deriving DecidableEq, Repr

/-- The column attributes declared on the Python `NotificationLog` ORM
class (`app/domain/models/notification_log.py`). -/
def notificationLogModelColumns : List String :=
  ["id", "phone", "message", "status", "error", "direction", "sent_at"]

/-- `_was_notified_today(db, phone)` (vendor channel): any row with this
phone, `status == "sent"`, `direction == "outbound"` and today's send
date — no category filter. -/
def was_notified_today (ledger : List LogRow) (phone : String) (today : PyDate) : Bool :=
  ledger.any fun r =>
    r.phone == phone && r.status == "sent" && r.direction == "outbound"
      && r.sent_date == today

/-- `_was_client_notified_today(db, phone)` (client channel): any row with
this phone, `status == "sent"`, `notification_type == "client"` and
today's send date — no direction filter. -/
def was_client_notified_today (ledger : List LogRow) (phone : String) (today : PyDate) : Bool :=
  ledger.any fun r =>
    r.phone == phone && r.status == "sent"
      && r.notification_type == some "client" && r.sent_date == today

/-- The dedup predicate as the spec words it: a record with that phone,
**that category**, status `sent`, and today's local send date.
(Spec-side definition, for comparison with the code-side checks.) -/
def specWasNotifiedToday (ledger : List LogRow) (phone : String)
    (category : String) (today : PyDate) : Bool :=
  ledger.any fun r =>
    r.phone == phone && r.notification_type == some category
      && r.status == "sent" && r.sent_date == today

/-- `message[:500] + "..." if len(message) > 500 else message` — the
stored audit preview of a rendered message. -/
def truncPreview (m : String) : String :=
  if m.length > 500 then pySlice m 500 ++ "..." else m

/-! ## Gateway client — `evolution_api.py` -/

/-- Module constants of `evolution_api.py`. -/
def MIN_DELAY_BETWEEN_MESSAGES : ℚ := 3
def MAX_DELAY_BETWEEN_MESSAGES : ℚ := 7
def BATCH_SIZE : Nat := 10
def BATCH_PAUSE : Nat := 30
def MAX_RETRIES : Nat := 3
def RETRY_DELAY : Nat := 2

/-- A sleep performed by `_apply_rate_limit`: either the fixed batch pause
or the `random.uniform(MIN, MAX)` short delay. -/
inductive RateDelay
  | batchPause (secs : Nat)
  | randomShort (secs : ℚ)
deriving DecidableEq, Repr

/-- `random.uniform(a, b)` is `a + (b - a) * r` for the raw draw
`r = random.random() ∈ [0, 1)`. -/
def pyUniform (a b r : ℚ) : ℚ := a + (b - a) * r

/-- `_apply_rate_limit`: increments the per-client message counter, then
either batch-pauses (counter a positive multiple of `BATCH_SIZE`) or
sleeps a uniform short delay.  Returns the new counter and the sleep. -/
def apply_rate_limit (messageCount : Nat) (draw : ℚ) : Nat × RateDelay :=
  let c := messageCount + 1
  if c > 0 ∧ c % BATCH_SIZE = 0 then
    (c, .batchPause BATCH_PAUSE)
  else
    (c, .randomShort (pyUniform MIN_DELAY_BETWEEN_MESSAGES MAX_DELAY_BETWEEN_MESSAGES draw))

/-- Outcome of one raw HTTP attempt inside `send_text`. -/
inductive AttemptOutcome
  | ok (response : String)
  | httpErr (status : Nat) (body : String)
  | connErr (msg : String)
deriving DecidableEq, Repr

/-- The observable events of one `send_text` call, in order. -/
inductive GwEvent
  | rateLimitSleep (d : RateDelay)
  | httpAttempt (attempt : Nat)
  | sleepPenalty (secs : Nat)
  | sleepBackoff (secs : Nat)
deriving DecidableEq, Repr

/-- Error string recorded for a failed HTTP attempt. -/
def attemptErrStr : AttemptOutcome → String
  | .ok r => r
  | .httpErr status body => s!"HTTP {status}: {body}"
  | .connErr msg => msg

/-- The retry loop of `send_text` (`for attempt in range(1, max_retries + 1)`).
`remaining` counts the attempts still allowed (starts at `MAX_RETRIES`,
so `attempt < max_retries` is `remaining > 1` after consuming one);
`outcome attempt` is what the HTTP request does on that attempt. -/
def sendLoop (outcome : Nat → AttemptOutcome) (retryDelay : Nat) :
    Nat → Nat → String → List GwEvent × Except String String
  | 0, _, lastErr =>
      ([], .error s!"Failed to send message after {MAX_RETRIES} attempts: {lastErr}")
  | remaining + 1, attempt, _ =>
      match outcome attempt with
      | .ok response => ([.httpAttempt attempt], .ok response)
      | .httpErr status body =>
          let penalty : List GwEvent :=
            if status = 429 ∨ status = 500 ∨ status = 502 ∨ status = 503 ∨ status = 504 then
              [.sleepPenalty (10 * attempt)]
            else []
          let backoff : List GwEvent :=
            if remaining > 0 then [.sleepBackoff (retryDelay * attempt)] else []
          let rest := sendLoop outcome retryDelay remaining (attempt + 1)
            (attemptErrStr (.httpErr status body))
          (.httpAttempt attempt :: penalty ++ backoff ++ rest.1, rest.2)
      | .connErr msg =>
          let backoff : List GwEvent :=
            if remaining > 0 then [.sleepBackoff (retryDelay * attempt)] else []
          let rest := sendLoop outcome retryDelay remaining (attempt + 1) msg
          (.httpAttempt attempt :: backoff ++ rest.1, rest.2)

/-- Wire-level phone normalization inside `send_text`: strip `+`, spaces,
dashes and parentheses, then prepend `55` unless already present. -/
def wireNormalize (phone : String) : String :=
  let clean := String.mk (phone.data.filter fun ch =>
    ch ≠ '+' ∧ ch ≠ ' ' ∧ ch ≠ '-' ∧ ch ≠ '(' ∧ ch ≠ ')')
  if pyStarts clean "55" then clean else "55" ++ clean

/-- `send_text(phone, message, apply_rate_limit=True)`: the rate-limit
sleep (when enabled), then the retry loop.  Returns the event trace, the
result, and the updated message counter. -/
def send_text (messageCount : Nat) (draw : ℚ) (outcome : Nat → AttemptOutcome)
    (applyRateLimit : Bool := true) : List GwEvent × Except String String × Nat :=
  let pre :=
    if applyRateLimit then
      let cd := apply_rate_limit messageCount draw
      (cd.1, [GwEvent.rateLimitSleep cd.2])
    else (messageCount, ([] : List GwEvent))
  let run := sendLoop outcome RETRY_DELAY MAX_RETRIES 1 ""
  (pre.2 ++ run.1, run.2, pre.1)

/-- Number of HTTP attempts in an event trace. -/
def countAttempts (evs : List GwEvent) : Nat :=
  evs.countP fun e => match e with | .httpAttempt _ => true | _ => false

/-! ## Vendor orchestrator — `send_daily_alerts` -/

/-- Vendor chunk cap (`notification_service.PRODUCTS_PER_MESSAGE`). -/
def VENDOR_PER_MESSAGE : Nat := 25

/-- Client chunk cap (`client_notification_service.PRODUCTS_PER_MESSAGE`). -/
def CLIENT_PER_MESSAGE : Nat := 15

/-- The possible outcomes of `json.loads(phone.notification_types)` as the
service distinguishes them: column `NULL`/empty (falsy), a JSON list, a
JSON value that is not a list, or malformed JSON. -/
inductive NotifTypesField
  | nullOrEmpty
  | jsonList (l : List String)
  | jsonNonList
  | invalidJson
deriving DecidableEq, Repr

/-- `user_types` after the try/except and `isinstance` fallbacks. -/
def userTypes : NotifTypesField → List String
  | .nullOrEmpty => ["MUITO CRÍTICO", "CRITICO", "ATENÇÃO"]
  | .jsonList l => l
  | .jsonNonList => ["MUITO CRÍTICO"]
  | .invalidJson => ["MUITO CRÍTICO"]

/-- A row of the `phone_numbers` table as the vendor run reads it. -/
structure PhoneNumber where
  number : String
  is_active : Bool
  notification_types : NotifTypesField
deriving DecidableEq, Repr

/-- `products_map[p_type]` guarded by `if p_type in products_map`. -/
def productsMapLookup (muito critico atencao : List Product) (pType : String) :
    List Product :=
  if pType = "MUITO CRÍTICO" then muito
  else if pType = "CRITICO" then critico
  else if pType = "ATENÇÃO" then atencao
  else []

/-- Key set of `{p.id: p for p in l}` in insertion order (first
occurrence of each id). -/
def firstOccIds (l : List Product) : List Nat :=
  l.foldl (fun acc p => if acc.contains p.id then acc else acc ++ [p.id]) []

/-- The dict's value for a key: the **last** product with that id. -/
def lastWithId (l : List Product) (i : Nat) : Option Product :=
  (l.filter fun p => p.id == i).getLast?

/-- `list({p.id: p for p in contact_products}.values())`. -/
def pyDictValues (l : List Product) : List Product :=
  (firstOccIds l).filterMap (lastWithId l)

/-- One `client.send_text` call the run performed (recipient and full
rendered message). -/
structure SendCall where
  phone : String
  message : String
deriving DecidableEq, Repr

/-- Mutable state of one vendor run. -/
structure VendorState where
  ledger : List LogRow
  sent : Nat
  skipped : Nat
  errors : List (String × String)
  callIdx : Nat
  trace : List SendCall
deriving Repr

/-- Result of a send call: the retry loop's verdict for the `callIdx`-th
`send_text` of the run (the rate-limit sleeps do not affect it). -/
def callResult (oracle : Nat → Nat → AttemptOutcome) (callIdx : Nat) :
    Except String String :=
  (sendLoop (oracle callIdx) RETRY_DELAY MAX_RETRIES 1 "").2

/-- The ledger-bracketed send of one vendor chunk: insert a `pending` row,
call the gateway, finalize the row to `sent` or `failed`, commit. -/
def processVendorChunk (oracle : Nat → Nat → AttemptOutcome) (now : Now)
    (today : PyDate) (phoneNum : String) (totalChunks : Nat)
    (st : VendorState) (idxChunk : Nat × List Product) : VendorState :=
  let chunkIdx := idxChunk.1
  let chunk := idxChunk.2
  let startIndex := chunkIdx * VENDOR_PER_MESSAGE + 1
  let message :=
    format_critical_products_message chunk now chunkIdx totalChunks startIndex
  match callResult oracle st.callIdx with
  | .ok _ =>
      let row : LogRow := {
        phone := phoneNum
        message := truncPreview message
        status := "sent"
        error := none
        direction := "outbound"
        notification_type := some "vendor"
        sent_date := today }
      { st with
        ledger := st.ledger ++ [row],
        sent := st.sent + 1,
        callIdx := st.callIdx + 1,
        trace := st.trace ++ [⟨phoneNum, message⟩] }
  | .error e =>
      let row : LogRow := {
        phone := phoneNum
        message := truncPreview message
        status := "failed"
        error := some (pySlice e 500)
        direction := "outbound"
        notification_type := some "vendor"
        sent_date := today }
      { st with
        ledger := st.ledger ++ [row],
        errors := st.errors ++ [(phoneNum, e)],
        callIdx := st.callIdx + 1,
        trace := st.trace ++ [⟨phoneNum, message⟩] }

/-- The body of the vendor per-recipient loop. -/
def processPhone (muito critico atencao : List Product)
    (oracle : Nat → Nat → AttemptOutcome) (now : Now) (today : PyDate)
    (force : Bool) (st : VendorState) (ph : PhoneNumber) : VendorState :=
  let contact := pyDictValues
    ((userTypes ph.notification_types).flatMap
      (productsMapLookup muito critico atencao))
  if contact.isEmpty then { st with skipped := st.skipped + 1 }
  else if !force && was_notified_today st.ledger ph.number today then
    { st with skipped := st.skipped + 1 }
  else
    let chunks := pyChunks contact VENDOR_PER_MESSAGE
    chunks.enum.foldl (processVendorChunk oracle now today ph.number chunks.length) st

/-- What `send_daily_alerts` returns: either one of the early-exit dicts
(carrying its message) or the run summary
`{sent, skipped, total_phones, errors}`. -/
inductive VendorResult
  | early (msg : String)
  | summary (sent skipped total_phones : Nat) (errors : List (String × String))
deriving DecidableEq, Repr

/-- `send_daily_alerts(db, repo, force)`.  External reads are arguments:
the latest completed upload id, the three severity-tier product lists,
the `phone_numbers` table, the ledger, and the clock; the gateway is the
attempt oracle.  Returns the result, the final ledger, and the trace of
gateway send calls. -/
def send_daily_alerts (uploadId : Option Nat) (muito critico atencao : List Product)
    (phones : List PhoneNumber) (ledger0 : List LogRow) (today : PyDate) (now : Now)
    (oracle : Nat → Nat → AttemptOutcome) (force : Bool) :
    VendorResult × List LogRow × List SendCall :=
  match uploadId with
  | none => (.early "Nenhum arquivo processado encontrado", ledger0, [])
  | some _ =>
    let active := phones.filter (·.is_active)
    if active.isEmpty then (.early "Nenhum número ativo cadastrado", ledger0, [])
    else
      let st := active.foldl
        (processPhone muito critico atencao oracle now today force)
        ⟨ledger0, 0, 0, [], 0, []⟩
      (.summary st.sent st.skipped active.length st.errors, st.ledger, st.trace)

/-! ## Client orchestrator — `send_client_alerts` -/

/-- Mutable state of one client run.  Error entries carry
`(phone, client display name, error[:200])`. -/
structure ClientState where
  ledger : List LogRow
  sent : Nat
  skipped : Nat
  failed : Nat
  no_phone : Nat
  errors : List (String × String × String)
  callIdx : Nat
  trace : List SendCall
deriving Repr

/-- `c.fantasia or c.razao_social or str(c.codigo)`. -/
def clientDisplayName (c : Client) : String :=
  pyOrStr c.fantasia (pyOrStr c.razao_social (fstrInt c.codigo))

/-- The ledger-bracketed send of one client chunk. -/
def processClientChunk (oracle : Nat → Nat → AttemptOutcome) (now : Now)
    (today : PyDate) (c : Client) (phoneNum : String) (totalChunks : Nat)
    (st : ClientState) (idxChunk : Nat × List Product) : ClientState :=
  let chunkIdx := idxChunk.1
  let chunk := idxChunk.2
  let message := format_client_products_message c chunk now chunkIdx totalChunks
  match callResult oracle st.callIdx with
  | .ok _ =>
      let row : LogRow := {
        phone := phoneNum
        message := truncPreview message
        status := "sent"
        error := none
        direction := "outbound"
        notification_type := some "client"
        sent_date := today }
      { st with
        ledger := st.ledger ++ [row],
        sent := st.sent + 1,
        callIdx := st.callIdx + 1,
        trace := st.trace ++ [⟨phoneNum, message⟩] }
  | .error e =>
      let row : LogRow := {
        phone := phoneNum
        message := truncPreview message
        status := "failed"
        error := some (pySlice e 500)
        direction := "outbound"
        notification_type := some "client"
        sent_date := today }
      { st with
        ledger := st.ledger ++ [row],
        failed := st.failed + 1,
        errors := st.errors ++ [(phoneNum, clientDisplayName c, pySlice e 200)],
        callIdx := st.callIdx + 1,
        trace := st.trace ++ [⟨phoneNum, message⟩] }

/-- The body of the client per-recipient loop (the dataflow as written,
with `notification_type` as the database column the migration script
defines — the deployed behaviour against the actual ORM class is
modelled separately below). -/
def processClient (products : List Product) (oracle : Nat → Nat → AttemptOutcome)
    (now : Now) (today : PyDate) (force : Bool)
    (st : ClientState) (c : Client) : ClientState :=
  match normalize_phone c.celular with
  | none => { st with no_phone := st.no_phone + 1 }
  | some phone =>
    if !force && was_client_notified_today st.ledger phone today then
      { st with skipped := st.skipped + 1 }
    else
      let chunks := pyChunks products CLIENT_PER_MESSAGE
      chunks.enum.foldl (processClientChunk oracle now today c phone chunks.length) st

/-- What `send_client_alerts` returns: an early-exit dict or the summary
`{sent, skipped, failed, no_phone, total_inactive_clients, total_products,
errors[:20]}`. -/
inductive ClientResult
  | early (msg : String)
  | summary (sent skipped failed no_phone total_inactive total_products : Nat)
      (errors : List (String × String × String))
deriving DecidableEq, Repr

/-- `send_client_alerts(db, product_repo, client_repo, force)` — the
dataflow as written in the service body. -/
def send_client_alerts (productUploadId : Option Nat)
    (muito critico atencao : List Product) (inactiveClients : List Client)
    (ledger0 : List LogRow) (today : PyDate) (now : Now)
    (oracle : Nat → Nat → AttemptOutcome) (force : Bool) :
    ClientResult × List LogRow × List SendCall :=
  match productUploadId with
  | none => (.early "Nenhum arquivo de produtos processado", ledger0, [])
  | some _ =>
    let products := muito ++ critico ++ atencao
    if products.isEmpty then
      (.early "Nenhum produto crítico encontrado", ledger0, [])
    else if inactiveClients.isEmpty then
      (.early "Nenhum cliente inativo com telefone válido", ledger0, [])
    else
      let st := inactiveClients.foldl
        (processClient products oracle now today force)
        ⟨ledger0, 0, 0, 0, 0, [], 0, []⟩
      (.summary st.sent st.skipped st.failed st.no_phone
          inactiveClients.length products.length (st.errors.take 20),
        st.ledger, st.trace)

/-! ## Python call binding and the deployed client channel -/

/-- Whether a Python call `f(a₁, …, a_np, k₁=…, …)` binds against a
signature: every keyword names a parameter, no keyword rebinds a
positionally-filled slot, and every required parameter gets a value.
A `false` is a `TypeError` raised before the function body runs. -/
def pyCallOk (params required : List String) (numPositional : Nat)
    (kwargs : List String) : Bool :=
  numPositional ≤ params.length
    && kwargs.all (fun k => params.contains k)
    && kwargs.all (fun k => !(params.take numPositional).contains k)
    && required.all (fun r =>
        (params.take numPositional).contains r || kwargs.contains r)

/-- Signature of `send_client_alerts(db, product_repo, client_repo,
force=False)`. -/
def send_client_alerts_params : List String :=
  ["db", "product_repo", "client_repo", "force"]

def send_client_alerts_required : List String :=
  ["db", "product_repo", "client_repo"]

/-- Signature of `send_daily_alerts(db, repo, force=False)`. -/
def send_daily_alerts_params : List String := ["db", "repo", "force"]

def send_daily_alerts_required : List String := ["db", "repo"]

/-- `daily_client_alert_job` calls
`send_client_alerts(db, product_repo, client_repo, limit=100)`:
three positional arguments plus the keyword `limit`. -/
def clientJobCallBinds : Bool :=
  pyCallOk send_client_alerts_params send_client_alerts_required 3 ["limit"]

/-- The `/api/notifications/trigger` route calls
`send_daily_alerts(db, force=force)`: one positional argument plus the
keyword `force`. -/
def triggerCallBinds : Bool :=
  pyCallOk send_daily_alerts_params send_daily_alerts_required 1 ["force"]

/-- Keyword-argument check of the SQLAlchemy declarative constructor: every
keyword must be a mapped attribute of the class. -/
def ormCtorOk (cols kwargs : List String) : Bool :=
  kwargs.all fun k => cols.contains k

/-- The deployed client-channel step: as `processClient`, but executing
against the actual Python `NotificationLog` class.  For a client with a
normalizable phone, the dedup query (`force=False`) or the row
constructor (`force=True`) references `notification_type`, which the
class does not declare, so the step raises before any gateway send; the
raise aborts the loop, so later clients are not processed. -/
def processClientDeployed (force : Bool)
    (acc : Option String × ClientState) (c : Client) : Option String × ClientState :=
  match acc.1 with
  | some _ => acc
  | none =>
    let st := acc.2
    match normalize_phone c.celular with
    | none => (none, { st with no_phone := st.no_phone + 1 })
    | some _ =>
      if !force then
        if notificationLogModelColumns.contains "notification_type" then
          acc
        else
          (some "AttributeError: type object NotificationLog has no attribute notification_type", st)
      else
        if ormCtorOk notificationLogModelColumns
            ["phone", "message", "status", "direction", "notification_type"] then
          acc
        else
          (some "TypeError: notification_type is an invalid keyword argument for NotificationLog", st)

/-- `send_client_alerts` as deployed (actual ORM class): either an early
exit, or the loop, which aborts with an exception at the first client
whose phone normalizes.  Returns the abort message (if any) and the
state reached. -/
def send_client_alerts_deployed (productUploadId : Option Nat)
    (muito critico atencao : List Product) (inactiveClients : List Client)
    (ledger0 : List LogRow) (force : Bool) :
    Option String × ClientState :=
  let st0 : ClientState := ⟨ledger0, 0, 0, 0, 0, [], 0, []⟩
  match productUploadId with
  | none => (none, st0)
  | some _ =>
    let products := muito ++ critico ++ atencao
    if products.isEmpty then (none, st0)
    else if inactiveClients.isEmpty then (none, st0)
    else inactiveClients.foldl (processClientDeployed force) (none, st0)

/-- The `/api/notifications/trigger` endpoint: a `TypeError` from the
mis-bound call is caught by the route's `except` and surfaces as an HTTP
500; otherwise the run summary is returned. -/
inductive HttpTriggerResult
  | ok (body : VendorResult)
  | serverError (status : Nat)
deriving DecidableEq, Repr

def trigger_notifications (uploadId : Option Nat)
    (muito critico atencao : List Product) (phones : List PhoneNumber)
    (ledger0 : List LogRow) (today : PyDate) (now : Now)
    (oracle : Nat → Nat → AttemptOutcome) (force : Bool) : HttpTriggerResult :=
  if triggerCallBinds then
    .ok (send_daily_alerts uploadId muito critico atencao phones ledger0
      today now oracle force).1
  else .serverError 500

end Akram

namespace Akram

/-! ## Concrete fixtures shared by witnesses and counterexamples -/

def sampleProduct : Product :=
  ⟨1, some 100, some "AZEITE EXTRA VIRGEM", some "CX12", some 5,
    some ⟨1, 12, 2026⟩, some 1050, some 950, some "CRITICO", some "MATRIZ"⟩

def sampleProduct2 : Product :=
  ⟨2, some 200, some "FARINHA DE TRIGO", some "FD10", some 3,
    some ⟨15, 11, 2026⟩, some 825, some 700, some "MUITO CRITICO", some "FILIAL 2"⟩

def sampleClient : Client :=
  ⟨some 77, some "MERCADO BOM PRECO LTDA", some "BOM PRECO", some "66996109797",
    some ⟨1, 8, 2026⟩⟩

def sampleNow : Now := ⟨⟨10, 10, 2026⟩, 9, 30⟩

def sampleNow2 : Now := ⟨⟨10, 10, 2026⟩, 14, 5⟩

def sampleToday : PyDate := ⟨10, 10, 2026⟩

/-- A ledger row recording a **client**-category alert sent today to a
given phone (outbound, status `sent`). -/
def sampleClientSentRow : LogRow :=
  ⟨"5566996109797", "client alert preview", "sent", none, "outbound",
    some "client", ⟨10, 10, 2026⟩⟩

/-- 21 active registered phones with no type preference. -/
def manyPhones : List PhoneNumber :=
  (List.range 21).map fun k => ⟨"55669990" ++ toString k, true, .nullOrEmpty⟩

/-- A gateway oracle that answers every attempt of every call with 2xx. -/
def oracleAllOk : Nat → Nat → AttemptOutcome := fun _ _ => .ok "ok"

/-- A gateway oracle: every attempt of every call fails with HTTP 400. -/
def oracleAll400 : Nat → Nat → AttemptOutcome := fun _ _ => .httpErr 400 "Bad Request"

/-- A gateway oracle: attempts 1 and 2 fail transiently (503), attempt 3
succeeds — for every call. -/
def oracleThirdTry : Nat → Nat → AttemptOutcome :=
  fun _ attempt => if attempt < 3 then .httpErr 503 "unavailable" else .ok "ok"

end Akram

namespace Akram

/-- The sleeps `_apply_rate_limit` performs over `n` consecutive
`send_text` calls on one client instance, starting from message counter
`count` (0 for a fresh instance), with every short delay drawn `draw`. -/
def delaySeq (draw : ℚ) : Nat → Nat → List RateDelay
  | 0, _ => []
  | n + 1, count =>
      let cd := apply_rate_limit count draw
      cd.2 :: delaySeq draw n cd.1

end Akram


namespace Akram

/-! # Claim theorems -/

/-! ## Supporting lemmas -/

theorem pyFalsy_iff_len (s : String) : pyFalsy s = true ↔ s.length = 0 := by
  cases s with
  | mk data => cases data <;> simp [pyFalsy, String.length]

theorem cleanDigits_length (raw : String) :
    (cleanDigits raw).length = (raw.data.filter Char.isDigit).length := rfl

theorem cleanDigits_of_falsy (raw : String) (h : pyFalsy raw = true) :
    (cleanDigits raw).length = 0 := by
  have : raw.data = [] := by
    simpa [pyFalsy, List.isEmpty_iff] using h
  rw [cleanDigits_length, this]
  rfl

end Akram

namespace Akram

/-- C8: client-channel phone normalization: after keeping only digit
characters, 10–11 digits get `"55"` prepended, 12–13 digits starting
with `"55"` pass through unchanged, anything shorter than 10 or longer
than 13 digits (including empty) is rejected; and the four documented
examples behave as specified. -/
theorem C8_phone_normalization :
    (∀ raw : String,
      (10 ≤ (cleanDigits raw).length → (cleanDigits raw).length ≤ 11 →
        normalize_phone (some raw) = some ("55" ++ cleanDigits raw)) ∧
      (12 ≤ (cleanDigits raw).length → (cleanDigits raw).length ≤ 13 →
        pyStarts (cleanDigits raw) "55" = true →
        normalize_phone (some raw) = some (cleanDigits raw)) ∧
      ((cleanDigits raw).length < 10 ∨ 13 < (cleanDigits raw).length →
        normalize_phone (some raw) = none)) ∧
    normalize_phone (some "66996109797") = some "5566996109797" ∧
    normalize_phone (some "5566999557737") = some "5566999557737" ∧
    normalize_phone (some "065924198") = none ∧
    normalize_phone (some "VERIFICAR") = none := by
  refine ⟨fun raw => ⟨?_, ?_, ?_⟩, by decide, by decide, by decide, by decide⟩
  · intro h10 h11
    have hne : ¬ (pyFalsy raw = true) := fun h => by
      have := cleanDigits_of_falsy raw h
      omega
    have hdig : ¬ (pyFalsy (cleanDigits raw) = true) := fun h => by
      have := (pyFalsy_iff_len (cleanDigits raw)).mp h
      omega
    simp only [normalize_phone]
    rw [if_neg hne, if_neg (by push_neg; exact ⟨hdig, by omega⟩),
      if_neg (by omega), if_neg (by rintro ⟨-, h⟩; omega), if_pos ⟨h10, h11⟩]
  · intro h12 h13 hpre
    have hne : ¬ (pyFalsy raw = true) := fun h => by
      have := cleanDigits_of_falsy raw h
      omega
    have hdig : ¬ (pyFalsy (cleanDigits raw) = true) := fun h => by
      have := (pyFalsy_iff_len (cleanDigits raw)).mp h
      omega
    simp only [normalize_phone]
    rw [if_neg hne, if_neg (by push_neg; exact ⟨hdig, by omega⟩),
      if_neg (by omega), if_pos ⟨hpre, by omega⟩]
  · intro hbad
    rcases eq_or_ne (pyFalsy raw) true with hf | hf
    · simp [normalize_phone, hf]
    · simp only [normalize_phone]
      rw [if_neg hf]
      rcases hbad with h | h
      · rw [if_pos (Or.inr h)]
      · have hdig : ¬ (pyFalsy (cleanDigits raw) = true) := fun hh => by
          have := (pyFalsy_iff_len (cleanDigits raw)).mp hh
          omega
        rw [if_neg (by push_neg; exact ⟨hdig, by omega⟩), if_pos h]

/-- C8 witness: the general part applied at a concrete 10-digit raw
string containing punctuation. -/
theorem C8_phone_normalization_witness :
    normalize_phone (some "(44) 9988-7766") = some "554499887766" := by
  have h := (C8_phone_normalization.1 "(44) 9988-7766").1 (by decide) (by decide)
  simpa using h

end Akram

namespace Akram

/-- C7: for any payload list and positive item cap, the Python chunk split
yields `⌈L/C⌉` chunks of at most `C` items whose concatenation is the
original list in order; `start_index = chunk_idx*C + 1` makes the item
numbering continuous across parts; with more than one part, the message's
fourth line is the part header `Parte k de N`; and 47 items at cap 20
give sizes `[20, 20, 7]`. -/
theorem C7_chunking :
    (∀ (l : List Product) (c : Nat), c ≠ 0 →
      (pyChunks l c).length = (l.length + c - 1) / c ∧
      (∀ ch ∈ pyChunks l c, ch.length ≤ c) ∧
      (pyChunks l c).flatten = l ∧
      (chunkNumbersFrom c (pyChunks l c) 0).flatten = List.range' 1 l.length) ∧
    (∀ (chunk : List Product) (now : Now) (part total si : Nat), 1 < total →
      (formatCriticalLines chunk now part total si).get? 3
        = some s!"📋 Parte {part + 1} de {total}") ∧
    (pyChunks (List.range 47) 20).map List.length = [20, 20, 7] ∧
    (∀ (chunk : List Product) (now : Now) (si : Nat),
      (formatCriticalLines chunk now 0 3 si).get? 3 = some "📋 Parte 1 de 3" ∧
      (formatCriticalLines chunk now 1 3 si).get? 3 = some "📋 Parte 2 de 3" ∧
      (formatCriticalLines chunk now 2 3 si).get? 3 = some "📋 Parte 3 de 3") := by
  have hdr : ∀ (chunk : List Product) (now : Now) (part total si : Nat), 1 < total →
      (formatCriticalLines chunk now part total si).get? 3
        = some s!"📋 Parte {part + 1} de {total}" := by
    intro chunk now part total si h
    simp [formatCriticalLines, h]
  refine ⟨fun l c hc => ⟨pyChunks_length c hc l, pyChunks_chunk_le c l,
      pyChunks_flatten c hc l, ?_⟩, hdr, by decide, ?_⟩
  · simpa using pyChunks_numbering c hc l 0
  · intro chunk now si
    exact ⟨hdr chunk now 0 3 si (by omega), hdr chunk now 1 3 si (by omega),
      hdr chunk now 2 3 si (by omega)⟩

/-- C7 witness: the general chunking facts applied at a concrete two-item
list with cap 1, and the header fact at a concrete chunk. -/
theorem C7_chunking_witness :
    pyChunks [sampleProduct, sampleProduct2] 1
        = [[sampleProduct], [sampleProduct2]] ∧
    (formatCriticalLines [sampleProduct] sampleNow 0 2 1).get? 3
        = some "📋 Parte 1 de 2" := by
  constructor
  · have h := (C7_chunking.1 [sampleProduct, sampleProduct2] 1 (by decide)).2.2.1
    have hl := (C7_chunking.1 [sampleProduct, sampleProduct2] 1 (by decide)).1
    have hle := (C7_chunking.1 [sampleProduct, sampleProduct2] 1 (by decide)).2.1
    decide
  · have h := C7_chunking.2.1 [sampleProduct] sampleNow 0 2 1 (by omega)
    simpa using h

end Akram

namespace Akram

/-- C4 counterexample: a permanent failure (HTTP 400, a 4xx other than
429) is retried — `send_text`'s loop performs 3 HTTP attempts for it,
not exactly one as claimed. -/
theorem C4_counterexample :
    countAttempts (sendLoop (oracleAll400 0) RETRY_DELAY MAX_RETRIES 1 "").1 = 3 ∧
    countAttempts (sendLoop (oracleAll400 0) RETRY_DELAY MAX_RETRIES 1 "").1 ≠ 1 := by
  decide

/-- C4 (amended): every gateway failure is retried up to the 3-attempt
ceiling.  The extra penalty wait (`10 * attempt`) is added only for the
statuses 429/500/502/503/504; a connection error or timeout gets just
the plain backoff sleeps (`2 * attempt`), exactly like a permanent 4xx.
A permanent 4xx (≠ 429) thus gets 3 HTTP attempts with only the plain
backoff — no penalty wait — and after exhaustion the send raises; a 429
also gets 3 attempts but with penalty waits; and the orchestrator then
records the exhausted failure as a single `failed` ledger row plus an
error-summary entry. -/
theorem C4_retry_all_failures :
    (∀ (status : Nat) (body : String), 400 ≤ status → status ≤ 499 → status ≠ 429 →
      countAttempts (sendLoop (fun _ => .httpErr status body) RETRY_DELAY MAX_RETRIES 1 "").1
          = MAX_RETRIES ∧
      (∀ e ∈ (sendLoop (fun _ => .httpErr status body) RETRY_DELAY MAX_RETRIES 1 "").1,
        ∀ secs, e ≠ .sleepPenalty secs) ∧
      (∃ msg, (sendLoop (fun _ => .httpErr status body) RETRY_DELAY MAX_RETRIES 1 "").2
          = .error msg)) ∧
    (countAttempts (sendLoop (fun _ => .httpErr 429 "rate") RETRY_DELAY MAX_RETRIES 1 "").1 = 3 ∧
      GwEvent.sleepPenalty 10 ∈ (sendLoop (fun _ => .httpErr 429 "rate") RETRY_DELAY MAX_RETRIES 1 "").1) ∧
    (∀ msg : String,
      (sendLoop (fun _ => .connErr msg) RETRY_DELAY MAX_RETRIES 1 "").1
        = [.httpAttempt 1, .sleepBackoff 2, .httpAttempt 2, .sleepBackoff 4,
           .httpAttempt 3] ∧
      (∃ m, (sendLoop (fun _ => .connErr msg) RETRY_DELAY MAX_RETRIES 1 "").2
          = .error m)) ∧
    (∀ (now : Now) (today : PyDate) (ph : String) (tot : Nat)
        (st : VendorState) (ic : Nat × List Product),
      ∃ row : LogRow,
        (processVendorChunk oracleAll400 now today ph tot st ic).ledger
            = st.ledger ++ [row] ∧
        row.status = "failed" ∧
        row.error ≠ none ∧
        (processVendorChunk oracleAll400 now today ph tot st ic).errors.length
            = st.errors.length + 1) := by
  refine ⟨?_, by decide, ?_, ?_⟩
  case refine_2 =>
    intro msg
    constructor
    · simp [sendLoop, MAX_RETRIES, RETRY_DELAY]
    · simp only [sendLoop, MAX_RETRIES]
      exact ⟨_, rfl⟩
  · intro status body h4a h4b h429
    have hcond : ¬(status = 429 ∨ status = 500 ∨ status = 502 ∨ status = 503
        ∨ status = 504) := by omega
    have hevs : (sendLoop (fun _ => .httpErr status body) RETRY_DELAY MAX_RETRIES 1 "").1
        = [.httpAttempt 1, .sleepBackoff 2, .httpAttempt 2, .sleepBackoff 4,
           .httpAttempt 3] := by
      simp [sendLoop, hcond, MAX_RETRIES, RETRY_DELAY]
    refine ⟨?_, ?_, ?_⟩
    · rw [hevs]
      rfl
    · intro e he secs
      rw [hevs] at he
      simp only [List.mem_cons, List.not_mem_nil, or_false] at he
      rcases he with rfl | rfl | rfl | rfl | rfl <;> simp
    · simp only [sendLoop, hcond, MAX_RETRIES]
      exact ⟨_, rfl⟩
  · intro now today ph tot st ic
    have hres : callResult oracleAll400 st.callIdx = .error
        "Failed to send message after 3 attempts: HTTP 400: Bad Request" := rfl
    simp only [processVendorChunk, hres]
    refine ⟨_, rfl, rfl, by simp, by simp⟩

/-- C4 witness: the amended theorem applied at HTTP 404. -/
theorem C4_retry_all_failures_witness :
    countAttempts (sendLoop (fun _ => .httpErr 404 "nf") RETRY_DELAY MAX_RETRIES 1 "").1
        = MAX_RETRIES := by
  exact (C4_retry_all_failures.1 404 "nf" (by decide) (by decide) (by decide)).1

end Akram

namespace Akram

/-- C6 counterexample: from a fresh client (counter 0), the 11th send is
preceded by a short random delay, not the 30s batch pause; the counter
is incremented before the check, so it is the 10th send — after 9
completed sends — that gets the pause. -/
theorem C6_counterexample :
    (∃ d : ℚ, (delaySeq 0 11 0).get? 10 = some (.randomShort d)) ∧
    (delaySeq 0 11 0).get? 10 ≠ some (.batchPause BATCH_PAUSE) ∧
    (delaySeq 0 11 0).get? 9 = some (.batchPause BATCH_PAUSE) := by
  refine ⟨⟨pyUniform MIN_DELAY_BETWEEN_MESSAGES MAX_DELAY_BETWEEN_MESSAGES 0, ?_⟩, ?_, ?_⟩ <;>
    simp [delaySeq, apply_rate_limit, BATCH_SIZE, BATCH_PAUSE]

/-- C6 (amended): `_apply_rate_limit` increments the counter first, so the
batch pause precedes exactly the 10th, 20th, … send — i.e. it comes
after 9 completed sends, and the 11th send gets the short delay again;
every short delay lies within `[MIN, MAX] = [3, 7]` (uniform draws live
in `[0, 1)`); and in `send_text` the governance sleep is the first event,
strictly before every HTTP attempt. -/
theorem C6_rate_governor :
    (∀ (count : Nat) (draw : ℚ),
      (apply_rate_limit count draw).1 = count + 1 ∧
      ((apply_rate_limit count draw).2 = .batchPause BATCH_PAUSE ↔
        (count + 1) % BATCH_SIZE = 0)) ∧
    (∀ (count : Nat) (draw : ℚ), 0 ≤ draw → draw < 1 →
      (count + 1) % BATCH_SIZE ≠ 0 →
      ∃ d : ℚ, (apply_rate_limit count draw).2 = .randomShort d ∧
        MIN_DELAY_BETWEEN_MESSAGES ≤ d ∧ d ≤ MAX_DELAY_BETWEEN_MESSAGES) ∧
    (∀ (count : Nat) (draw : ℚ) (outcome : Nat → AttemptOutcome),
      (send_text count draw outcome).1
        = .rateLimitSleep (apply_rate_limit count draw).2
            :: (sendLoop outcome RETRY_DELAY MAX_RETRIES 1 "").1) ∧
    (delaySeq 0 10 0).get? 9 = some (.batchPause BATCH_PAUSE) := by
  refine ⟨?_, ?_, ?_, by simp [delaySeq, apply_rate_limit, BATCH_SIZE, BATCH_PAUSE]⟩
  · intro count draw
    constructor
    · simp only [apply_rate_limit]
      by_cases hc : count + 1 > 0 ∧ (count + 1) % BATCH_SIZE = 0
      · rw [if_pos hc]
      · rw [if_neg hc]
    · constructor
      · intro h
        simp only [apply_rate_limit] at h
        by_cases hc : (count + 1) % BATCH_SIZE = 0
        · exact hc
        · rw [if_neg fun hh => hc hh.2] at h
          simp at h
      · intro h
        simp only [apply_rate_limit]
        rw [if_pos ⟨by omega, h⟩]
  · intro count draw h0 h1 hmod
    refine ⟨pyUniform MIN_DELAY_BETWEEN_MESSAGES MAX_DELAY_BETWEEN_MESSAGES draw,
      ?_, ?_, ?_⟩
    · simp only [apply_rate_limit]
      rw [if_neg fun hh => hmod hh.2]
    · unfold pyUniform MIN_DELAY_BETWEEN_MESSAGES MAX_DELAY_BETWEEN_MESSAGES
      nlinarith
    · unfold pyUniform MIN_DELAY_BETWEEN_MESSAGES MAX_DELAY_BETWEEN_MESSAGES
      nlinarith
  · intro count draw outcome
    rfl

/-- C6 witness: the short-delay bound applied at counter 0 and draw 1/2
(delay 5s), and the first-event fact at a concrete call. -/
theorem C6_rate_governor_witness :
    (∃ d : ℚ, (apply_rate_limit 0 (1/2)).2 = .randomShort d ∧
      MIN_DELAY_BETWEEN_MESSAGES ≤ d ∧ d ≤ MAX_DELAY_BETWEEN_MESSAGES) ∧
    (send_text 0 (1/2) (oracleAllOk 0)).1
      = .rateLimitSleep (apply_rate_limit 0 (1/2)).2
          :: (sendLoop (oracleAllOk 0) RETRY_DELAY MAX_RETRIES 1 "").1 := by
  exact ⟨C6_rate_governor.2.1 0 (1/2) (by norm_num) (by norm_num) (by decide),
    C6_rate_governor.2.2.1 0 (1/2) (oracleAllOk 0)⟩

end Akram

namespace Akram

theorem list_any_congr {l : List α} {p q : α → Bool}
    (h : ∀ a ∈ l, p a = q a) : l.any p = l.any q := by
  induction l with
  | nil => rfl
  | cons x xs ih =>
      simp only [List.any_cons, h x (List.mem_cons_self x xs)]
      rw [ih fun a ha => h a (List.mem_cons_of_mem x ha)]

/-- C2 counterexample: a `sent` ledger row of the **client** category,
dated today, makes the vendor-channel dedup check return `true` for that
phone even though no vendor-category record exists — so a sent record of
one category does suppress a send of another category to the same phone
on the same day, contradicting the claimed per-(phone, category) `iff`. -/
theorem C2_counterexample :
    was_notified_today [sampleClientSentRow] "5566996109797" ⟨10, 10, 2026⟩ = true ∧
    specWasNotifiedToday [sampleClientSentRow] "5566996109797" "vendor"
        ⟨10, 10, 2026⟩ = false := by
  decide

/-- C2 (amended): the dedup granularity differs per channel.  The
client-channel check is exactly the spec's per-(phone, category)
predicate at category `client`; the vendor-channel check is per phone
only — it is true iff **any** outbound `sent` row for that phone bears
today's date, whatever its category, so a client-category send that day
also suppresses vendor sends. -/
theorem C2_dedup_granularity :
    (∀ (l : List LogRow) (p : String) (t : PyDate),
      was_client_notified_today l p t = specWasNotifiedToday l p "client" t) ∧
    (∀ (l : List LogRow) (p : String) (t : PyDate),
      was_notified_today l p t = true ↔
        ∃ r ∈ l, r.phone = p ∧ r.status = "sent" ∧ r.direction = "outbound"
          ∧ r.sent_date = t) ∧
    (∀ (l : List LogRow) (p : String) (t : PyDate) (r : LogRow),
      r ∈ l → r.phone = p → r.status = "sent" → r.direction = "outbound" →
      r.sent_date = t → was_notified_today l p t = true) := by
  have hvendor : ∀ (l : List LogRow) (p : String) (t : PyDate),
      was_notified_today l p t = true ↔
        ∃ r ∈ l, r.phone = p ∧ r.status = "sent" ∧ r.direction = "outbound"
          ∧ r.sent_date = t := by
    intro l p t
    simp only [was_notified_today, List.any_eq_true, Bool.and_eq_true, beq_iff_eq]
    tauto
  refine ⟨?_, hvendor, ?_⟩
  · intro l p t
    have boolPerm : ∀ a b c d : Bool, (a && b && c && d) = (a && c && b && d) := by
      decide
    simp only [was_client_notified_today, specWasNotifiedToday]
    apply list_any_congr
    intro r _
    exact boolPerm (r.phone == p) (r.status == "sent")
      (r.notification_type == some "client") (r.sent_date == t)
  · intro l p t r hr h1 h2 h3 h4
    exact (hvendor l p t).mpr ⟨r, hr, h1, h2, h3, h4⟩

/-- C2 witness: the per-phone suppression fact applied at the concrete
client-category row, and the client-channel equality at a concrete
ledger. -/
theorem C2_dedup_granularity_witness :
    was_notified_today [sampleClientSentRow] "5566996109797" ⟨10, 10, 2026⟩ = true ∧
    was_client_notified_today [sampleClientSentRow] "5566996109797" ⟨10, 10, 2026⟩
      = specWasNotifiedToday [sampleClientSentRow] "5566996109797" "client"
          ⟨10, 10, 2026⟩ := by
  refine ⟨C2_dedup_granularity.2.2 [sampleClientSentRow] "5566996109797"
      ⟨10, 10, 2026⟩ sampleClientSentRow (by decide) (by decide) (by decide)
      (by decide) (by decide),
    C2_dedup_granularity.1 [sampleClientSentRow] "5566996109797" ⟨10, 10, 2026⟩⟩

end Akram

namespace Akram

/-- C9 counterexample: two invocations of each formatter with identical
record list, caps and part context, but performed at different clock
readings (09:30 vs 14:05 of the same day), produce different chunk
strings — the message embeds `datetime.now(tz)`, which the claim does not
fix. -/
theorem C9_counterexample :
    format_critical_products_message [sampleProduct] sampleNow 0 1 1
      ≠ format_critical_products_message [sampleProduct] sampleNow2 0 1 1 ∧
    format_client_products_message sampleClient [sampleProduct] sampleNow 0 1
      ≠ format_client_products_message sampleClient [sampleProduct] sampleNow2 0 1 := by
  decide

/-- C9 (amended): each formatter is a pure function of its inputs **plus
the clock reading**: two invocations with the same ordered records, the
same caps/part context, the same client record (client channel) and the
same `now` produce identical output; and the part count is determined by
the record-list length and the cap alone. -/
theorem C9_formatter_determinism :
    (∀ (ps ps' : List Product) (now now' : Now) (part total si : Nat),
      ps = ps' → now = now' →
      format_critical_products_message ps now part total si
        = format_critical_products_message ps' now' part total si) ∧
    (∀ (c c' : Client) (ps ps' : List Product) (now now' : Now) (part total : Nat),
      c = c' → ps = ps' → now = now' →
      format_client_products_message c ps now part total
        = format_client_products_message c' ps' now' part total) ∧
    (∀ (ps ps' : List Product) (cap : Nat), ps.length = ps'.length →
      (pyChunks ps cap).length = (pyChunks ps' cap).length) := by
  refine ⟨?_, ?_, ?_⟩
  · intro ps ps' now now' part total si hps hnow
    subst hps
    subst hnow
    rfl
  · intro c c' ps ps' now now' part total hc hps hnow
    subst hc
    subst hps
    subst hnow
    rfl
  · intro ps ps' cap hlen
    rcases eq_or_ne cap 0 with rfl | hcap
    · rw [pyChunks_zero, pyChunks_zero]
    · rw [pyChunks_length cap hcap, pyChunks_length cap hcap, hlen]

/-- C9 witness: determinism applied at concrete equal inputs, and the
part-count fact at two different single-item lists. -/
theorem C9_formatter_determinism_witness :
    format_critical_products_message [sampleProduct] sampleNow 0 1 1
      = format_critical_products_message [sampleProduct] sampleNow 0 1 1 ∧
    (pyChunks [sampleProduct] 25).length = (pyChunks [sampleProduct2] 25).length := by
  exact ⟨C9_formatter_determinism.1 [sampleProduct] [sampleProduct] sampleNow
      sampleNow 0 1 1 rfl rfl,
    C9_formatter_determinism.2.2 [sampleProduct] [sampleProduct2] 25 (by decide)⟩

end Akram

namespace Akram

theorem processClientDeployed_trace (force : Bool) (acc : Option String × ClientState)
    (c : Client) : (processClientDeployed force acc c).2.trace = acc.2.trace := by
  rcases acc with ⟨omsg, st⟩
  cases omsg with
  | some m => rfl
  | none =>
      cases hnp : normalize_phone c.celular with
      | none => simp only [processClientDeployed, hnp]
      | some p =>
          simp only [processClientDeployed, hnp]
          split_ifs <;> rfl

theorem foldClientDeployed_trace (force : Bool) :
    ∀ (l : List Client) (acc : Option String × ClientState),
      (l.foldl (processClientDeployed force) acc).2.trace = acc.2.trace := by
  intro l
  induction l with
  | nil => intro acc; rfl
  | cons c rest ih =>
      intro acc
      rw [List.foldl_cons, ih, processClientDeployed_trace]

theorem foldClientDeployed_none (force : Bool) :
    ∀ (l : List Client) (acc : Option String × ClientState),
      (l.foldl (processClientDeployed force) acc).1 = none →
      acc.1 = none ∧ ∀ c ∈ l, normalize_phone c.celular = none := by
  intro l
  induction l with
  | nil => intro acc h; exact ⟨h, by simp⟩
  | cons c rest ih =>
      intro acc h
      rw [List.foldl_cons] at h
      obtain ⟨hstep, hrest⟩ := ih (processClientDeployed force acc c) h
      rcases acc with ⟨omsg, st⟩
      cases omsg with
      | some m => simp [processClientDeployed] at hstep
      | none =>
          refine ⟨rfl, ?_⟩
          intro c' hc'
          rcases List.mem_cons.mp hc' with rfl | hmem
          · by_contra hne
            cases hnp : normalize_phone c'.celular with
            | none => exact hne hnp
            | some p =>
                rw [show (processClientDeployed force (none, st) c')
                    = if force = false then
                        (some "AttributeError: type object NotificationLog has no attribute notification_type", st)
                      else
                        (some "TypeError: notification_type is an invalid keyword argument for NotificationLog", st)
                  from by
                    simp only [processClientDeployed, hnp]
                    cases force <;> simp <;> decide] at hstep
                split_ifs at hstep
          · exact hrest c' hmem

/-- C3: the client-alert channel cannot complete a send as deployed.  The
scheduled job's call passes a `limit` keyword that `send_client_alerts`
does not accept (a `TypeError` before the body runs); the
`NotificationLog` ORM class declares no `notification_type` attribute,
so the dedup query and the ledger-row constructor that reference it are
both invalid; consequently the deployed run performs zero gateway sends,
and it aborts with an error at the first client whose phone normalizes
successfully. -/
theorem C3_client_channel_always_fails :
    clientJobCallBinds = false ∧
    notificationLogModelColumns.contains "notification_type" = false ∧
    ormCtorOk notificationLogModelColumns
        ["phone", "message", "status", "direction", "notification_type"] = false ∧
    (∀ (uploadId : Option Nat) (muito critico atencao : List Product)
        (clients : List Client) (ledger0 : List LogRow) (force : Bool),
      (send_client_alerts_deployed uploadId muito critico atencao clients
          ledger0 force).2.trace = [] ∧
      ((∃ c ∈ clients, normalize_phone c.celular ≠ none) →
        uploadId ≠ none → muito ++ critico ++ atencao ≠ [] → clients ≠ [] →
        (send_client_alerts_deployed uploadId muito critico atencao clients
            ledger0 force).1 ≠ none)) := by
  refine ⟨by decide, by decide, by decide, ?_⟩
  intro uploadId muito critico atencao clients ledger0 force
  constructor
  · unfold send_client_alerts_deployed
    cases uploadId with
    | none => rfl
    | some u =>
        simp only
        split_ifs
        · rfl
        · rfl
        · rw [foldClientDeployed_trace]
  · rintro ⟨c, hc, hcphone⟩ hup hprod hcl
    unfold send_client_alerts_deployed
    cases uploadId with
    | none => exact absurd rfl hup
    | some u =>
        simp only
        rw [if_neg (by simpa [List.isEmpty_iff] using hprod),
          if_neg (by simpa [List.isEmpty_iff] using hcl)]
        intro hnone
        obtain ⟨-, hall⟩ := foldClientDeployed_none force clients _ hnone
        exact hcphone (hall c hc)

/-- C3 witness: the run-level facts applied at a concrete deployment state
with one inactive client whose phone normalizes. -/
theorem C3_client_channel_always_fails_witness :
    (send_client_alerts_deployed (some 1) [sampleProduct] [] [] [sampleClient]
        [] false).2.trace = [] ∧
    (send_client_alerts_deployed (some 1) [sampleProduct] [] [] [sampleClient]
        [] false).1 ≠ none := by
  have h := (C3_client_channel_always_fails.2.2.2 (some 1) [sampleProduct] [] []
    [sampleClient] [] false)
  exact ⟨h.1, h.2 ⟨sampleClient, by decide, by decide⟩ (by decide) (by decide)
    (by decide)⟩

end Akram

namespace Akram

theorem was_notified_today_mono (l0 d : List LogRow) (p : String) (t : PyDate)
    (h : was_notified_today (l0 ++ d) p t = false) :
    was_notified_today l0 p t = false := by
  simp only [was_notified_today, List.any_append, Bool.or_eq_false_iff] at h
  exact h.1

theorem was_client_notified_today_mono (l0 d : List LogRow) (p : String) (t : PyDate)
    (h : was_client_notified_today (l0 ++ d) p t = false) :
    was_client_notified_today l0 p t = false := by
  simp only [was_client_notified_today, List.any_append, Bool.or_eq_false_iff] at h
  exact h.1

theorem processVendorChunk_shape (oracle : Nat → Nat → AttemptOutcome) (now : Now)
    (today : PyDate) (phN : String) (tot : Nat) (st : VendorState)
    (ic : Nat × List Product) :
    (∃ row, (processVendorChunk oracle now today phN tot st ic).ledger
        = st.ledger ++ [row]) ∧
    (∃ m, (processVendorChunk oracle now today phN tot st ic).trace
        = st.trace ++ [⟨phN, m⟩]) := by
  unfold processVendorChunk
  cases hres : callResult oracle st.callIdx with
  | ok v => simp only [hres]; exact ⟨⟨_, rfl⟩, ⟨_, rfl⟩⟩
  | error e => simp only [hres]; exact ⟨⟨_, rfl⟩, ⟨_, rfl⟩⟩

theorem vendorChunkFold_pres (oracle : Nat → Nat → AttemptOutcome) (now : Now)
    (today : PyDate) (phN : String) (tot : Nat) (ledger0 : List LogRow)
    (hph : was_notified_today ledger0 phN today = false) :
    ∀ (chunks : List (Nat × List Product)) (st : VendorState),
      (∃ d, st.ledger = ledger0 ++ d) →
      (∀ call ∈ st.trace, was_notified_today ledger0 call.phone today = false) →
      (∃ d, (chunks.foldl (processVendorChunk oracle now today phN tot) st).ledger
          = ledger0 ++ d) ∧
      (∀ call ∈ (chunks.foldl (processVendorChunk oracle now today phN tot) st).trace,
        was_notified_today ledger0 call.phone today = false) := by
  intro chunks
  induction chunks with
  | nil => intro st h1 h2; exact ⟨h1, h2⟩
  | cons ic rest ih =>
      intro st h1 h2
      rw [List.foldl_cons]
      obtain ⟨⟨row, hrow⟩, ⟨m, hm⟩⟩ := processVendorChunk_shape oracle now today phN tot st ic
      obtain ⟨d, hd⟩ := h1
      refine ih (processVendorChunk oracle now today phN tot st ic)
        ⟨d ++ [row], by rw [hrow, hd, List.append_assoc]⟩ ?_
      intro call hcall
      rw [hm] at hcall
      rcases List.mem_append.mp hcall with h | h
      · exact h2 call h
      · rcases List.mem_singleton.mp h with rfl
        exact hph

theorem processPhone_pres (muito critico atencao : List Product)
    (oracle : Nat → Nat → AttemptOutcome) (now : Now) (today : PyDate)
    (ledger0 : List LogRow) (st : VendorState) (ph : PhoneNumber)
    (h1 : ∃ d, st.ledger = ledger0 ++ d)
    (h2 : ∀ call ∈ st.trace, was_notified_today ledger0 call.phone today = false) :
    (∃ d, (processPhone muito critico atencao oracle now today false st ph).ledger
        = ledger0 ++ d) ∧
    (∀ call ∈ (processPhone muito critico atencao oracle now today false st ph).trace,
      was_notified_today ledger0 call.phone today = false) := by
  simp only [processPhone]
  by_cases hempty : (pyDictValues ((userTypes ph.notification_types).flatMap
      (productsMapLookup muito critico atencao))).isEmpty
  · rw [if_pos hempty]
    exact ⟨h1, h2⟩
  · rw [if_neg hempty]
    by_cases hdedup :
        (!false && was_notified_today st.ledger ph.number today) = true
    · rw [if_pos hdedup]
      exact ⟨h1, h2⟩
    · rw [if_neg hdedup]
      have hfalse : was_notified_today st.ledger ph.number today = false := by
        simpa using hdedup
      obtain ⟨d, hd⟩ := h1
      have hph : was_notified_today ledger0 ph.number today = false := by
        apply was_notified_today_mono ledger0 d
        rw [← hd]
        exact hfalse
      exact vendorChunkFold_pres oracle now today ph.number _ ledger0 hph _ st
        ⟨d, hd⟩ h2

theorem vendorPhoneFold_pres (muito critico atencao : List Product)
    (oracle : Nat → Nat → AttemptOutcome) (now : Now) (today : PyDate)
    (ledger0 : List LogRow) :
    ∀ (phones : List PhoneNumber) (st : VendorState),
      (∃ d, st.ledger = ledger0 ++ d) →
      (∀ call ∈ st.trace, was_notified_today ledger0 call.phone today = false) →
      ∀ call ∈ (phones.foldl
          (processPhone muito critico atencao oracle now today false) st).trace,
        was_notified_today ledger0 call.phone today = false := by
  intro phones
  induction phones with
  | nil => intro st _ h2; exact h2
  | cons ph rest ih =>
      intro st h1 h2
      rw [List.foldl_cons]
      obtain ⟨h1', h2'⟩ := processPhone_pres muito critico atencao oracle now today
        ledger0 st ph h1 h2
      exact ih _ h1' h2'

theorem processClientChunk_shape (oracle : Nat → Nat → AttemptOutcome) (now : Now)
    (today : PyDate) (c : Client) (phN : String) (tot : Nat) (st : ClientState)
    (ic : Nat × List Product) :
    (∃ row, (processClientChunk oracle now today c phN tot st ic).ledger
        = st.ledger ++ [row]) ∧
    (∃ m, (processClientChunk oracle now today c phN tot st ic).trace
        = st.trace ++ [⟨phN, m⟩]) := by
  unfold processClientChunk
  cases hres : callResult oracle st.callIdx with
  | ok v => simp only [hres]; exact ⟨⟨_, rfl⟩, ⟨_, rfl⟩⟩
  | error e => simp only [hres]; exact ⟨⟨_, rfl⟩, ⟨_, rfl⟩⟩

theorem clientChunkFold_pres (oracle : Nat → Nat → AttemptOutcome) (now : Now)
    (today : PyDate) (c : Client) (phN : String) (tot : Nat) (ledger0 : List LogRow)
    (hph : was_client_notified_today ledger0 phN today = false) :
    ∀ (chunks : List (Nat × List Product)) (st : ClientState),
      (∃ d, st.ledger = ledger0 ++ d) →
      (∀ call ∈ st.trace, was_client_notified_today ledger0 call.phone today = false) →
      (∃ d, (chunks.foldl (processClientChunk oracle now today c phN tot) st).ledger
          = ledger0 ++ d) ∧
      (∀ call ∈ (chunks.foldl (processClientChunk oracle now today c phN tot) st).trace,
        was_client_notified_today ledger0 call.phone today = false) := by
  intro chunks
  induction chunks with
  | nil => intro st h1 h2; exact ⟨h1, h2⟩
  | cons ic rest ih =>
      intro st h1 h2
      rw [List.foldl_cons]
      obtain ⟨⟨row, hrow⟩, ⟨m, hm⟩⟩ :=
        processClientChunk_shape oracle now today c phN tot st ic
      obtain ⟨d, hd⟩ := h1
      refine ih (processClientChunk oracle now today c phN tot st ic)
        ⟨d ++ [row], by rw [hrow, hd, List.append_assoc]⟩ ?_
      intro call hcall
      rw [hm] at hcall
      rcases List.mem_append.mp hcall with h | h
      · exact h2 call h
      · rcases List.mem_singleton.mp h with rfl
        exact hph

theorem processClient_pres (products : List Product)
    (oracle : Nat → Nat → AttemptOutcome) (now : Now) (today : PyDate)
    (ledger0 : List LogRow) (st : ClientState) (c : Client)
    (h1 : ∃ d, st.ledger = ledger0 ++ d)
    (h2 : ∀ call ∈ st.trace, was_client_notified_today ledger0 call.phone today = false) :
    (∃ d, (processClient products oracle now today false st c).ledger = ledger0 ++ d) ∧
    (∀ call ∈ (processClient products oracle now today false st c).trace,
      was_client_notified_today ledger0 call.phone today = false) := by
  cases hnp : normalize_phone c.celular with
  | none =>
      simp only [processClient, hnp]
      exact ⟨h1, h2⟩
  | some phone =>
      simp only [processClient, hnp]
      by_cases hdedup :
          (!false && was_client_notified_today st.ledger phone today) = true
      · rw [if_pos hdedup]
        exact ⟨h1, h2⟩
      · rw [if_neg hdedup]
        have hfalse : was_client_notified_today st.ledger phone today = false := by
          simpa using hdedup
        obtain ⟨d, hd⟩ := h1
        have hph : was_client_notified_today ledger0 phone today = false := by
          apply was_client_notified_today_mono ledger0 d
          rw [← hd]
          exact hfalse
        exact clientChunkFold_pres oracle now today c phone _ ledger0 hph _ st
          ⟨d, hd⟩ h2

theorem clientFold_pres (products : List Product)
    (oracle : Nat → Nat → AttemptOutcome) (now : Now) (today : PyDate)
    (ledger0 : List LogRow) :
    ∀ (clients : List Client) (st : ClientState),
      (∃ d, st.ledger = ledger0 ++ d) →
      (∀ call ∈ st.trace, was_client_notified_today ledger0 call.phone today = false) →
      ∀ call ∈ (clients.foldl
          (processClient products oracle now today false) st).trace,
        was_client_notified_today ledger0 call.phone today = false := by
  intro clients
  induction clients with
  | nil => intro st _ h2; exact h2
  | cons c rest ih =>
      intro st h1 h2
      rw [List.foldl_cons]
      obtain ⟨h1', h2'⟩ := processClient_pres products oracle now today ledger0
        st c h1 h2
      exact ih _ h1' h2'

/-- C1: with `force = false`, a recipient for which the dedup check is
already true receives zero gateway send calls in both channels: every
send call performed by a run is for a phone whose dedup check against the
run's initial ledger was false, and a dedup-positive recipient is skipped
with the skip counter incremented and nothing else changed. -/
theorem C1_dedup_skip :
    (∀ (uploadId : Option Nat) (muito critico atencao : List Product)
        (phones : List PhoneNumber) (ledger0 : List LogRow) (today : PyDate)
        (now : Now) (oracle : Nat → Nat → AttemptOutcome),
      ∀ call ∈ (send_daily_alerts uploadId muito critico atencao phones ledger0
          today now oracle false).2.2,
        was_notified_today ledger0 call.phone today = false) ∧
    (∀ (muito critico atencao : List Product) (oracle : Nat → Nat → AttemptOutcome)
        (now : Now) (today : PyDate) (st : VendorState) (ph : PhoneNumber),
      was_notified_today st.ledger ph.number today = true →
      pyDictValues ((userTypes ph.notification_types).flatMap
          (productsMapLookup muito critico atencao)) ≠ [] →
      processPhone muito critico atencao oracle now today false st ph
        = { st with skipped := st.skipped + 1 }) ∧
    (∀ (uploadId : Option Nat) (muito critico atencao : List Product)
        (clients : List Client) (ledger0 : List LogRow) (today : PyDate)
        (now : Now) (oracle : Nat → Nat → AttemptOutcome),
      ∀ call ∈ (send_client_alerts uploadId muito critico atencao clients ledger0
          today now oracle false).2.2,
        was_client_notified_today ledger0 call.phone today = false) ∧
    (∀ (products : List Product) (oracle : Nat → Nat → AttemptOutcome)
        (now : Now) (today : PyDate) (st : ClientState) (c : Client)
        (phone : String),
      normalize_phone c.celular = some phone →
      was_client_notified_today st.ledger phone today = true →
      processClient products oracle now today false st c
        = { st with skipped := st.skipped + 1 }) := by
  refine ⟨?_, ?_, ?_, ?_⟩
  · intro uploadId muito critico atencao phones ledger0 today now oracle call hcall
    unfold send_daily_alerts at hcall
    cases uploadId with
    | none => simp at hcall
    | some u =>
        simp only at hcall
        split_ifs at hcall with hempty
        · simp at hcall
        · exact vendorPhoneFold_pres muito critico atencao oracle now today ledger0
            _ _ ⟨[], by simp⟩ (by simp) call hcall
  · intro muito critico atencao oracle now today st ph hded hne
    unfold processPhone
    rw [if_neg (by simpa [List.isEmpty_iff] using hne), if_pos (by simp [hded])]
  · intro uploadId muito critico atencao clients ledger0 today now oracle call hcall
    unfold send_client_alerts at hcall
    cases uploadId with
    | none => simp at hcall
    | some u =>
        simp only at hcall
        split_ifs at hcall with hempty hcl
        · simp at hcall
        · simp at hcall
        · exact clientFold_pres (muito ++ critico ++ atencao) oracle now today
            ledger0 _ _ ⟨[], by simp⟩ (by simp) call hcall
  · intro products oracle now today st c phone hnp hded
    simp only [processClient, hnp]
    rw [if_pos (by simp [hded])]

/-- C1 witness: a vendor run over one already-notified recipient performs
zero send calls, and the per-recipient step just increments the skip
counter. -/
theorem C1_dedup_skip_witness :
    (∀ call ∈ (send_daily_alerts (some 1) [sampleProduct] [] []
        [⟨"5566996109797", true, .nullOrEmpty⟩]
        [⟨"5566996109797", "m", "sent", none, "outbound", some "vendor",
          ⟨10, 10, 2026⟩⟩]
        ⟨10, 10, 2026⟩ sampleNow oracleAllOk false).2.2,
      was_notified_today
        [⟨"5566996109797", "m", "sent", none, "outbound", some "vendor",
          ⟨10, 10, 2026⟩⟩] call.phone ⟨10, 10, 2026⟩ = false) ∧
    processClient [sampleProduct] oracleAllOk sampleNow ⟨10, 10, 2026⟩
        false ⟨[sampleClientSentRow], 0, 0, 0, 0, [], 0, []⟩ sampleClient
      = ⟨[sampleClientSentRow], 0, 1, 0, 0, [], 0, []⟩ := by
  constructor
  · exact C1_dedup_skip.1 (some 1) [sampleProduct] [] []
      [⟨"5566996109797", true, .nullOrEmpty⟩] _ ⟨10, 10, 2026⟩ sampleNow
      oracleAllOk
  · have h := C1_dedup_skip.2.2.2 [sampleProduct] oracleAllOk sampleNow
      ⟨10, 10, 2026⟩ ⟨[sampleClientSentRow], 0, 0, 0, 0, [], 0, []⟩
      sampleClient "5566996109797" (by decide) (by decide)
    simpa using h

end Akram

namespace Akram

theorem processVendorChunk_counts (oracle : Nat → Nat → AttemptOutcome) (now : Now)
    (today : PyDate) (phN : String) (tot : Nat) (st : VendorState)
    (ic : Nat × List Product) :
    (processVendorChunk oracle now today phN tot st ic).ledger.length
        = st.ledger.length + 1 ∧
    (processVendorChunk oracle now today phN tot st ic).trace.length
        = st.trace.length + 1 ∧
    (processVendorChunk oracle now today phN tot st ic).sent
        + (processVendorChunk oracle now today phN tot st ic).errors.length
        = st.sent + st.errors.length + 1 := by
  unfold processVendorChunk
  cases hres : callResult oracle st.callIdx with
  | ok v =>
      simp only [hres]
      refine ⟨?_, ?_, ?_⟩
      · rw [List.length_append]
        rfl
      · rw [List.length_append]
        rfl
      · show st.sent + 1 + st.errors.length = st.sent + st.errors.length + 1
        omega
  | error e =>
      simp only [hres]
      refine ⟨?_, ?_, ?_⟩
      · rw [List.length_append]
        rfl
      · rw [List.length_append]
        rfl
      · show st.sent + (st.errors ++ _).length = st.sent + st.errors.length + 1
        rw [List.length_append]
        rfl

theorem vendorChunkFold_counts (oracle : Nat → Nat → AttemptOutcome) (now : Now)
    (today : PyDate) (phN : String) (tot : Nat) :
    ∀ (chunks : List (Nat × List Product)) (st : VendorState),
      (chunks.foldl (processVendorChunk oracle now today phN tot) st).ledger.length
          = st.ledger.length + chunks.length ∧
      (chunks.foldl (processVendorChunk oracle now today phN tot) st).trace.length
          = st.trace.length + chunks.length ∧
      (chunks.foldl (processVendorChunk oracle now today phN tot) st).sent
          + (chunks.foldl (processVendorChunk oracle now today phN tot) st).errors.length
          = st.sent + st.errors.length + chunks.length := by
  intro chunks
  induction chunks with
  | nil => intro st; exact ⟨rfl, rfl, rfl⟩
  | cons ic rest ih =>
      intro st
      rw [List.foldl_cons]
      obtain ⟨e1, e2, e3⟩ :=
        processVendorChunk_counts oracle now today phN tot st ic
      obtain ⟨f1, f2, f3⟩ := ih (processVendorChunk oracle now today phN tot st ic)
      refine ⟨?_, ?_, ?_⟩ <;> simp only [f1, f2, f3, e1, e2, e3, List.length_cons] <;> omega

theorem processPhone_counts (muito critico atencao : List Product)
    (oracle : Nat → Nat → AttemptOutcome) (now : Now) (today : PyDate)
    (force : Bool) (st : VendorState) (ph : PhoneNumber) :
    ∃ k,
      (processPhone muito critico atencao oracle now today force st ph).ledger.length
          = st.ledger.length + k ∧
      (processPhone muito critico atencao oracle now today force st ph).trace.length
          = st.trace.length + k ∧
      (processPhone muito critico atencao oracle now today force st ph).sent
          + (processPhone muito critico atencao oracle now today force st ph).errors.length
          = st.sent + st.errors.length + k := by
  simp only [processPhone]
  by_cases hempty : (pyDictValues ((userTypes ph.notification_types).flatMap
      (productsMapLookup muito critico atencao))).isEmpty
  · rw [if_pos hempty]
    exact ⟨0, rfl, rfl, rfl⟩
  · rw [if_neg hempty]
    by_cases hdedup : (!force && was_notified_today st.ledger ph.number today) = true
    · rw [if_pos hdedup]
      exact ⟨0, rfl, rfl, rfl⟩
    · rw [if_neg hdedup]
      obtain ⟨f1, f2, f3⟩ := vendorChunkFold_counts oracle now today ph.number _ _ st
      exact ⟨_, f1, f2, f3⟩

theorem vendorPhoneFold_counts (muito critico atencao : List Product)
    (oracle : Nat → Nat → AttemptOutcome) (now : Now) (today : PyDate)
    (force : Bool) :
    ∀ (phones : List PhoneNumber) (st : VendorState),
      ∃ k,
        (phones.foldl (processPhone muito critico atencao oracle now today force)
            st).ledger.length = st.ledger.length + k ∧
        (phones.foldl (processPhone muito critico atencao oracle now today force)
            st).trace.length = st.trace.length + k ∧
        (phones.foldl (processPhone muito critico atencao oracle now today force)
            st).sent
          + (phones.foldl (processPhone muito critico atencao oracle now today force)
              st).errors.length
          = st.sent + st.errors.length + k := by
  intro phones
  induction phones with
  | nil => intro st; exact ⟨0, rfl, rfl, rfl⟩
  | cons ph rest ih =>
      intro st
      rw [List.foldl_cons]
      obtain ⟨k1, e1, e2, e3⟩ :=
        processPhone_counts muito critico atencao oracle now today force st ph
      obtain ⟨k2, f1, f2, f3⟩ :=
        ih (processPhone muito critico atencao oracle now today force st ph)
      exact ⟨k1 + k2, by omega, by omega, by omega⟩

/-- C5: gateway retries stay inside one ledger bracket.  A vendor run
appends exactly one ledger row per gateway send call (whatever the
outcome, and for any `force`); the retry loop confronted with transient
failures on attempts 1 and 2 and success on attempt 3 performs 3 HTTP
attempts and reports success; and a concrete run whose sends behave that
way ends with exactly one new ledger row for its single chunk, with
status `sent` — the two failed attempts leave no rows. -/
theorem C5_single_ledger_bracket :
    (∀ (uploadId : Option Nat) (muito critico atencao : List Product)
        (phones : List PhoneNumber) (ledger0 : List LogRow) (today : PyDate)
        (now : Now) (oracle : Nat → Nat → AttemptOutcome) (force : Bool),
      (send_daily_alerts uploadId muito critico atencao phones ledger0 today now
          oracle force).2.1.length
        = ledger0.length
          + (send_daily_alerts uploadId muito critico atencao phones ledger0 today
              now oracle force).2.2.length) ∧
    (countAttempts (sendLoop (oracleThirdTry 0) RETRY_DELAY MAX_RETRIES 1 "").1 = 3 ∧
      (sendLoop (oracleThirdTry 0) RETRY_DELAY MAX_RETRIES 1 "").2 = .ok "ok") ∧
    ((send_daily_alerts (some 1) [sampleProduct] [] []
        [⟨"5566996109797", true, .nullOrEmpty⟩] [] ⟨10, 10, 2026⟩ sampleNow
        oracleThirdTry false).2.1.map (fun r => r.status) = ["sent"] ∧
      (send_daily_alerts (some 1) [sampleProduct] [] []
        [⟨"5566996109797", true, .nullOrEmpty⟩] [] ⟨10, 10, 2026⟩ sampleNow
        oracleThirdTry false).2.2.length = 1) := by
  refine ⟨?_, ⟨by rfl, by rfl⟩, by decide⟩
  intro uploadId muito critico atencao phones ledger0 today now oracle force
  unfold send_daily_alerts
  cases uploadId with
  | none => simp
  | some u =>
      simp only
      split_ifs with hempty
      · simp
      · obtain ⟨k, e1, e2, e3⟩ := vendorPhoneFold_counts muito critico atencao
          oracle now today force (phones.filter (·.is_active))
          ⟨ledger0, 0, 0, [], 0, []⟩
        simp only [List.length_nil] at e1 e2 ⊢
        omega

end Akram

namespace Akram

/-- C10 counterexample: the manual-trigger endpoint never returns a run
summary — its call `send_daily_alerts(db, force=force)` leaves the
required `repo` parameter unbound, so the route answers HTTP 500 for
both values of `force` at a concrete, fully-populated deployment
state. -/
theorem C10_counterexample :
    triggerCallBinds = false ∧
    trigger_notifications (some 1) [sampleProduct] [] [] manyPhones []
        ⟨10, 10, 2026⟩ sampleNow oracleAllOk false = .serverError 500 ∧
    trigger_notifications (some 1) [sampleProduct] [] [] manyPhones []
        ⟨10, 10, 2026⟩ sampleNow oracleAllOk true = .serverError 500 := by
  refine ⟨by decide, ?_, ?_⟩ <;>
    · unfold trigger_notifications
      rw [if_neg (by decide : ¬ triggerCallBinds = true)]

/-- C10 (amended): the manual-trigger endpoint accepts the optional
`force` boolean but always returns HTTP 500 (missing `repo` argument).
The vendor run summary itself aggregates `sent`, `skipped` (dedup skips
and empty-payload skips combined), `total_phones` (the active
recipients), and an **uncapped** error list with one entry per failed
send (`sent + #errors = #send calls`); a concrete run with 21 failing
recipients yields 21 error entries.  The `failed`/`no_phone` counters
and the first-20 error cap exist only in the client-channel summary. -/
theorem C10_trigger_endpoint :
    (∀ (uploadId : Option Nat) (muito critico atencao : List Product)
        (phones : List PhoneNumber) (ledger0 : List LogRow) (today : PyDate)
        (now : Now) (oracle : Nat → Nat → AttemptOutcome) (force : Bool),
      trigger_notifications uploadId muito critico atencao phones ledger0 today
        now oracle force = .serverError 500) ∧
    (∀ (uploadId : Option Nat) (muito critico atencao : List Product)
        (phones : List PhoneNumber) (ledger0 : List LogRow) (today : PyDate)
        (now : Now) (oracle : Nat → Nat → AttemptOutcome) (force : Bool)
        (s k tp : Nat) (errs : List (String × String)),
      (send_daily_alerts uploadId muito critico atencao phones ledger0 today now
          oracle force).1 = .summary s k tp errs →
      s + errs.length
          = (send_daily_alerts uploadId muito critico atencao phones ledger0 today
              now oracle force).2.2.length ∧
      tp = (phones.filter (·.is_active)).length) ∧
    (∃ errs, (send_daily_alerts (some 1) [sampleProduct] [] [] manyPhones []
        ⟨10, 10, 2026⟩ sampleNow oracleAll400 false).1 = .summary 0 0 21 errs ∧
      errs.length = 21) ∧
    (∀ (uploadId : Option Nat) (muito critico atencao : List Product)
        (clients : List Client) (ledger0 : List LogRow) (today : PyDate)
        (now : Now) (oracle : Nat → Nat → AttemptOutcome) (force : Bool)
        (s k f np ti tp : Nat) (errs : List (String × String × String)),
      (send_client_alerts uploadId muito critico atencao clients ledger0 today
          now oracle force).1 = .summary s k f np ti tp errs →
      errs.length ≤ 20) := by
  refine ⟨?_, ?_, ?_, ?_⟩
  · intro uploadId muito critico atencao phones ledger0 today now oracle force
    unfold trigger_notifications
    rw [if_neg (by decide : ¬ triggerCallBinds = true)]
  · intro uploadId muito critico atencao phones ledger0 today now oracle force
      s k tp errs h
    unfold send_daily_alerts at h ⊢
    cases uploadId with
    | none => simp at h
    | some u =>
        simp only at h ⊢
        by_cases hempty : ((phones.filter (·.is_active)).isEmpty : Bool) = true
        · rw [if_pos hempty] at h
          simp at h
        · rw [if_neg hempty] at h ⊢
          obtain ⟨kk, e1, e2, e3⟩ := vendorPhoneFold_counts muito critico atencao
            oracle now today force (phones.filter (·.is_active))
            ⟨ledger0, 0, 0, [], 0, []⟩
          simp only [VendorResult.summary.injEq] at h
          obtain ⟨h1, h2, h3, h4⟩ := h
          subst h1
          subst h3
          subst h4
          simp only [List.length_nil] at e2 e3 ⊢
          exact ⟨by omega, trivial⟩
  · exact ⟨_, rfl, by decide⟩
  · intro uploadId muito critico atencao clients ledger0 today now oracle force
      s k f np ti tp errs h
    unfold send_client_alerts at h
    cases uploadId with
    | none => simp at h
    | some u =>
        simp only at h
        by_cases hp : ((muito ++ critico ++ atencao).isEmpty : Bool) = true
        · rw [if_pos hp] at h
          simp at h
        · rw [if_neg hp] at h
          by_cases hcl : (clients.isEmpty : Bool) = true
          · rw [if_pos hcl] at h
            simp at h
          · rw [if_neg hcl] at h
            simp only [ClientResult.summary.injEq] at h
            obtain ⟨g1, g2, g3, g4, g5, g6, g7⟩ := h
            subst g7
            simp only [List.length_take]
            omega

/-- C10 witness: the summary-counting fact applied at a concrete
successful one-recipient run, and the endpoint fact at a concrete state. -/
theorem C10_trigger_endpoint_witness :
    (1 + ([] : List (String × String)).length
      = (send_daily_alerts (some 1) [sampleProduct] [] []
          [⟨"5566996109797", true, .nullOrEmpty⟩] [] ⟨10, 10, 2026⟩ sampleNow
          oracleAllOk false).2.2.length) ∧
    trigger_notifications (some 1) [sampleProduct] [] []
        [⟨"5566996109797", true, .nullOrEmpty⟩] [] ⟨10, 10, 2026⟩ sampleNow
        oracleAllOk false = .serverError 500 := by
  refine ⟨?_, C10_trigger_endpoint.1 (some 1) [sampleProduct] [] []
    [⟨"5566996109797", true, .nullOrEmpty⟩] [] ⟨10, 10, 2026⟩ sampleNow
    oracleAllOk false⟩
  exact (C10_trigger_endpoint.2.1 (some 1) [sampleProduct] [] []
    [⟨"5566996109797", true, .nullOrEmpty⟩] [] ⟨10, 10, 2026⟩ sampleNow
    oracleAllOk false 1 0 1 [] (by decide)).1

end Akram
